import Mathlib

/-!
Verification development for the ti4-scepter server.

The definitions below are a shallow embedding of the Python source:

* `components/session_manager.py` — the in-memory session registry
  (`SessionManager` with its `active_sessions` and `session_to_game` dicts);
* `components/objective_catalog.py` — the objective ledger operating on the
  per-game SQLite store (`objectiveDefinitions`, `playerObjectives`,
  `gamePublicObjectives`, `players` tables);
* `components/exploration_catalog.py` and `routes/cards.py` — exploration
  cards, planet attachments and relic restoration.

Python dicts are modelled as insertion-ordered association lists, SQLite
tables as lists of row structures, timestamps (`datetime.now()` /
`CURRENT_TIMESTAMP`) as `Nat` values threaded in as a `now` parameter, and
raised exceptions as `Except.error`.  SQL transactions that roll back on
failure return the caller's database state unchanged.  The idempotent
schema-creation and catalog-seeding helpers (`ensure_*_tables`,
`populate_*_definitions`) are elided: the definition tables are part of the
modelled state.
-/

namespace Scepter

/-! Association-list helpers modelling Python dict operations: lookup (`d.get(k)`),
insertion (`d[k] = v`: replace in place when the key is present, append
otherwise) and deletion (`del d[k]`). -/

def alookup {α : Type} : List (String × α) → String → Option α
  | [], _ => none
  | (k, v) :: t, x => if k = x then some v else alookup t x

def ains {α : Type} : List (String × α) → String → α → List (String × α)
  | [], k, v => [(k, v)]
  | (k', v') :: t, k, v => if k' = k then (k, v) :: t else (k', v') :: ains t k v

def aerase {α : Type} : List (String × α) → String → List (String × α)
  | [], _ => []
  | (k', v') :: t, k => if k' = k then aerase t k else (k', v') :: aerase t k

theorem alookup_ains_self {α : Type} (l : List (String × α)) (k : String) (v : α) :
    alookup (ains l k v) k = some v := by
  induction l with
  | nil => simp [ains, alookup]
  | cons h t ih =>
    obtain ⟨k1, v1⟩ := h
    by_cases hk : k1 = k
    · simp [ains, if_pos hk, alookup]
    · simp [ains, if_neg hk, alookup, hk, ih]

theorem alookup_ains_ne {α : Type} (l : List (String × α)) (k x : String) (v : α)
    (hne : k ≠ x) : alookup (ains l k v) x = alookup l x := by
  induction l with
  | nil => simp [ains, alookup, hne]
  | cons h t ih =>
    obtain ⟨k1, v1⟩ := h
    by_cases hk : k1 = k
    · subst hk
      simp [ains, alookup, hne]
    · by_cases hx : k1 = x
      · subst hx
        simp [ains, if_neg hk, alookup]
      · simp [ains, if_neg hk, alookup, hx, ih]

theorem alookup_aerase_self {α : Type} (l : List (String × α)) (k : String) :
    alookup (aerase l k) k = none := by
  induction l with
  | nil => simp [aerase, alookup]
  | cons h t ih =>
    obtain ⟨k1, v1⟩ := h
    by_cases hk : k1 = k
    · simp [aerase, if_pos hk, ih]
    · simp [aerase, if_neg hk, alookup, hk, ih]

theorem alookup_aerase_ne {α : Type} (l : List (String × α)) (k x : String)
    (hne : k ≠ x) : alookup (aerase l k) x = alookup l x := by
  induction l with
  | nil => simp [aerase]
  | cons h t ih =>
    obtain ⟨k1, v1⟩ := h
    by_cases hk : k1 = k
    · subst hk
      simp [aerase, alookup, hne, ih]
    · by_cases hx : k1 = x
      · subst hx
        simp [aerase, if_neg hk, alookup]
      · simp [aerase, if_neg hk, alookup, hx, ih]

theorem mem_aerase {α : Type} {l : List (String × α)} {k : String} {e : String × α}
    (h : e ∈ aerase l k) : e ∈ l ∧ e.1 ≠ k := by
  induction l with
  | nil => simp [aerase] at h
  | cons hd t ih =>
    by_cases hk : hd.1 = k
    · simp only [aerase, hk, if_pos rfl] at h
      rcases ih h with ⟨h1, h2⟩
      exact ⟨List.mem_cons_of_mem _ h1, h2⟩
    · simp only [aerase, if_neg hk] at h
      rcases List.mem_cons.mp h with h1 | h1
      · subst h1; exact ⟨List.mem_cons_self _ _, hk⟩
      · rcases ih h1 with ⟨h2, h3⟩
        exact ⟨List.mem_cons_of_mem _ h2, h3⟩

/-! ## Session registry (`components/session_manager.py`)

`PlayerConnection` and `GameSession` mirror the dataclasses of the source;
`SessionManager` holds the `active_sessions` (game name → session) and
`session_to_game` (connection/session id → game name) dicts.  The Python
`if not game_name:` truthiness checks are modelled as comparisons with the
empty string. -/

structure PlayerConnection where
  session_id : String
  player_id : String
  player_name : String
  joined_at : Nat
  deriving DecidableEq

structure GameSession where
  game_name : String
  db_path : String
  host_session_id : String
  host_ip : String
  created_at : Nat
  last_activity : Nat
  connected_players : List (String × PlayerConnection)
  deriving DecidableEq

structure SessionManager where
  active_sessions : List (String × GameSession)
  session_to_game : List (String × String)
  deriving DecidableEq

/-- `SessionManager.start_hosting_session`: fails when the backing database
file is missing (`os.path.exists`, abstracted as `db_exists`) or a session
with the same name is already active; otherwise creates the `GameSession`
and indexes the host connection. -/
def start_hosting_session (s : SessionManager) (game_name db_path host_session_id : String)
    (host_ip : String) (db_exists : Bool) (now : Nat) : Bool × SessionManager :=
  if ¬ db_exists then (false, s)
  else if (alookup s.active_sessions game_name).isSome then (false, s)
  else
    let session : GameSession :=
      { game_name := game_name
        db_path := db_path
        host_session_id := host_session_id
        host_ip := host_ip
        created_at := now
        last_activity := now
        connected_players := [] }
    (true,
      { active_sessions := ains s.active_sessions game_name session
        session_to_game := ains s.session_to_game host_session_id game_name })

/-- `SessionManager.stop_hosting_session`: looks up the game indexed by the
given connection id; when present (and non-empty, per `if not game_name`),
deletes the `GameSession` entry and the caller's own reverse-index entry. -/
def stop_hosting_session (s : SessionManager) (host_session_id : String) :
    Option String × SessionManager :=
  match alookup s.session_to_game host_session_id with
  | none => (none, s)
  | some game_name =>
    if game_name = "" then (none, s)
    else
      (some game_name,
        { active_sessions := aerase s.active_sessions game_name
          session_to_game := aerase s.session_to_game host_session_id })

/-- `SessionManager.join_player_to_session`: fails when no session is active
for the game or some connected player already carries the same `player_id`;
otherwise records the `PlayerConnection` and the reverse-index entry. -/
def join_player_to_session (s : SessionManager) (game_name player_id player_name session_id : String)
    (now : Nat) : Bool × SessionManager :=
  match alookup s.active_sessions game_name with
  | none => (false, s)
  | some session =>
    if session.connected_players.any (fun conn => conn.2.player_id = player_id) then
      (false, s)
    else
      let connection : PlayerConnection :=
        { session_id := session_id
          player_id := player_id
          player_name := player_name
          joined_at := now }
      let session' :=
        { session with
            connected_players := ains session.connected_players session_id connection
            last_activity := now }
      (true,
        { active_sessions := ains s.active_sessions game_name session'
          session_to_game := ains s.session_to_game session_id game_name })

structure RemovedPlayerInfo where
  game_name : String
  player_name : String
  player_id : String
  deriving DecidableEq

/-- `SessionManager.remove_player_from_session`: a no-op returning `none`
unless the connection id is indexed, its session is active and the id is one
of the session's connected players; otherwise pops the player and deletes
the reverse-index entry. -/
def remove_player_from_session (s : SessionManager) (session_id : String) (now : Nat) :
    Option RemovedPlayerInfo × SessionManager :=
  match alookup s.session_to_game session_id with
  | none => (none, s)
  | some game_name =>
    if game_name = "" then (none, s)
    else
      match alookup s.active_sessions game_name with
      | none => (none, s)
      | some session =>
        match alookup session.connected_players session_id with
        | none => (none, s)
        | some connection =>
          let session' :=
            { session with
                connected_players := aerase session.connected_players session_id
                last_activity := now }
          (some { game_name := game_name
                  player_name := connection.player_name
                  player_id := connection.player_id },
            { active_sessions := ains s.active_sessions game_name session'
              session_to_game := aerase s.session_to_game session_id })

/-- Loop body of `cleanup_disconnected_sessions`: for one disconnected id,
look up its game in the evolving state; when the session is still active,
stop hosting if the id is the host, otherwise remove the player. -/
def cleanup_step (now : Nat) (acc : SessionManager) (session_id : String) : SessionManager :=
  match alookup acc.session_to_game session_id with
  | none => acc
  | some game_name =>
    if game_name = "" then acc
    else
      match alookup acc.active_sessions game_name with
      | none => acc
      | some session =>
        if session_id = session.host_session_id then
          (stop_hosting_session acc session_id).2
        else
          (remove_player_from_session acc session_id now).2

/-- `SessionManager.cleanup_disconnected_sessions`: collects the indexed
connection ids that are not in the live set, then applies `cleanup_step`
to each of them in order. -/
def cleanup_disconnected_sessions (s : SessionManager) (connected_session_ids : List String)
    (now : Nat) : SessionManager :=
  let sessions_to_remove :=
    (s.session_to_game.map Prod.fst).filter (fun sid => ¬ connected_session_ids.contains sid)
  sessions_to_remove.foldl (cleanup_step now) s

/-! ## Registry lemmas and claim theorems -/

theorem stop_hosting_session_spec (s : SessionManager) (host_session_id g : String)
    (h : (stop_hosting_session s host_session_id).1 = some g) :
    alookup s.session_to_game host_session_id = some g ∧ g ≠ "" ∧
    (stop_hosting_session s host_session_id).2 =
      { active_sessions := aerase s.active_sessions g
        session_to_game := aerase s.session_to_game host_session_id } := by
  unfold stop_hosting_session at h ⊢
  cases hlk : alookup s.session_to_game host_session_id with
  | none => rw [hlk] at h; simp at h
  | some gn =>
    rw [hlk] at h
    by_cases hg : gn = ""
    · simp [hg] at h
    · simp only [hg] at h
      obtain rfl : gn = g := by simpa using h
      simp [hg]

/-- C1 counterexample: host "h" starts hosting "Nexus", player "Alice"
joins on connection "c1"; `stop_hosting_session "h"` returns "Nexus" but the
joined player's reverse-index entry `"c1" ↦ "Nexus"` is NOT removed,
refuting the claim that every connection of the session is unindexed
afterwards. -/
theorem C1_counterexample_player_entry_survives :
    (stop_hosting_session
      (join_player_to_session
        (start_hosting_session { active_sessions := [], session_to_game := [] }
          "Nexus" "/games/nexus.db" "h" "192.168.0.10" true 0).2
        "Nexus" "p1" "Alice" "c1" 1).2
      "h").1 = some "Nexus" ∧
    alookup
      (stop_hosting_session
        (join_player_to_session
          (start_hosting_session { active_sessions := [], session_to_game := [] }
            "Nexus" "/games/nexus.db" "h" "192.168.0.10" true 0).2
          "Nexus" "p1" "Alice" "c1" 1).2
        "h").2.session_to_game "c1" = some "Nexus" := by
  exact ⟨rfl, rfl⟩

/-- C1 (amended): when `stop_hosting_session` returns a game name it removes
the `GameSession` and the host's own reverse-index entry (joined players'
reverse-index entries are not removed); a second call with the same host
connection id is a no-op returning `none`, and any subsequent join of that
game fails. -/
theorem C1_stop_hosting_amended (s : SessionManager) (host_session_id g : String)
    (h : (stop_hosting_session s host_session_id).1 = some g) :
    alookup (stop_hosting_session s host_session_id).2.active_sessions g = none ∧
    alookup (stop_hosting_session s host_session_id).2.session_to_game host_session_id = none ∧
    stop_hosting_session (stop_hosting_session s host_session_id).2 host_session_id =
      (none, (stop_hosting_session s host_session_id).2) ∧
    ∀ pid pname sid now,
      join_player_to_session (stop_hosting_session s host_session_id).2 g pid pname sid now =
        (false, (stop_hosting_session s host_session_id).2) := by
  obtain ⟨hidx, hg, hs2⟩ := stop_hosting_session_spec s host_session_id g h
  rw [hs2]
  refine ⟨alookup_aerase_self _ _, alookup_aerase_self _ _, ?_, ?_⟩
  · unfold stop_hosting_session
    rw [alookup_aerase_self]
  · intro pid pname sid now
    unfold join_player_to_session
    rw [alookup_aerase_self]

/-- C1 witness: the amended statement evaluated on the two-connection
scenario of the counterexample state. -/
theorem C1_stop_hosting_amended_witness :
    alookup
      (stop_hosting_session
        { active_sessions := [("Nexus",
            { game_name := "Nexus", db_path := "/games/nexus.db", host_session_id := "h"
              host_ip := "192.168.0.10", created_at := 0, last_activity := 1
              connected_players := [("c1",
                { session_id := "c1", player_id := "p1", player_name := "Alice", joined_at := 1 })] })]
          session_to_game := [("h", "Nexus"), ("c1", "Nexus")] }
        "h").2.active_sessions "Nexus" = none :=
  (C1_stop_hosting_amended
    { active_sessions := [("Nexus",
        { game_name := "Nexus", db_path := "/games/nexus.db", host_session_id := "h"
          host_ip := "192.168.0.10", created_at := 0, last_activity := 1
          connected_players := [("c1",
            { session_id := "c1", player_id := "p1", player_name := "Alice", joined_at := 1 })] })]
      session_to_game := [("h", "Nexus"), ("c1", "Nexus")] }
    "h" "Nexus" rfl).1

theorem remove_player_from_session_spec (s : SessionManager) (c1 g : String)
    (sess : GameSession) (conn : PlayerConnection) (now : Nat)
    (h1 : alookup s.session_to_game c1 = some g) (h2 : g ≠ "")
    (h3 : alookup s.active_sessions g = some sess)
    (h4 : alookup sess.connected_players c1 = some conn) :
    remove_player_from_session s c1 now =
      (some { game_name := g, player_name := conn.player_name, player_id := conn.player_id },
        { active_sessions := ains s.active_sessions g
            { sess with
                connected_players := aerase sess.connected_players c1
                last_activity := now }
          session_to_game := aerase s.session_to_game c1 }) := by
  unfold remove_player_from_session
  simp [h1, h2, h3, h4]

/-- C9: joining a player id that already has a live presence in an active
session fails regardless of the connection id used and leaves the registry
unchanged; and after `remove_player_from_session` on the connection holding
that player's presence (the only one holding it), a join of the same player
id with a fresh connection id succeeds. -/
theorem C9_duplicate_player_join_and_rejoin :
    (∀ (s : SessionManager) (g : String) (sess : GameSession) (pid pname sid : String) (now : Nat),
      alookup s.active_sessions g = some sess →
      sess.connected_players.any (fun conn => conn.2.player_id = pid) = true →
      join_player_to_session s g pid pname sid now = (false, s)) ∧
    (∀ (s : SessionManager) (g : String) (sess : GameSession) (c1 pid : String)
        (conn : PlayerConnection) (now : Nat),
      alookup s.session_to_game c1 = some g → g ≠ "" →
      alookup s.active_sessions g = some sess →
      alookup sess.connected_players c1 = some conn →
      conn.player_id = pid →
      (∀ e ∈ sess.connected_players, e.2.player_id = pid → e.1 = c1) →
      ∀ (pname c2 : String) (now2 : Nat),
        (join_player_to_session (remove_player_from_session s c1 now).2 g pid pname c2 now2).1
          = true) := by
  constructor
  · intro s g sess pid pname sid now hlk hany
    simp [join_player_to_session, hlk, hany]
  · intro s g sess c1 pid conn now h1 h2 h3 h4 _h5 h6 pname c2 now2
    rw [remove_player_from_session_spec s c1 g sess conn now h1 h2 h3 h4]
    unfold join_player_to_session
    rw [alookup_ains_self]
    have hany : ((aerase sess.connected_players c1).any
        (fun conn => conn.2.player_id = pid)) = false := by
      rw [List.any_eq_false]
      intro e he
      rcases mem_aerase he with ⟨hmem, hne⟩
      simp only [decide_eq_true_eq]
      intro hpid
      exact hne (h6 e hmem hpid)
    simp [hany]

/-- C9 witness: host "h" hosts "G", "Alice" (player id "p1") joins on "c1";
a second join of "p1" on "c2" fails; after removing "c1", the join on "c2"
succeeds. -/
theorem C9_duplicate_player_witness :
    (join_player_to_session
        { active_sessions := [("G",
            { game_name := "G", db_path := "/games/g.db", host_session_id := "h"
              host_ip := "ip", created_at := 0, last_activity := 1
              connected_players := [("c1",
                { session_id := "c1", player_id := "p1", player_name := "Alice", joined_at := 1 })] })]
          session_to_game := [("h", "G"), ("c1", "G")] }
        "G" "p1" "Alice" "c2" 2 =
      (false,
        { active_sessions := [("G",
            { game_name := "G", db_path := "/games/g.db", host_session_id := "h"
              host_ip := "ip", created_at := 0, last_activity := 1
              connected_players := [("c1",
                { session_id := "c1", player_id := "p1", player_name := "Alice", joined_at := 1 })] })]
          session_to_game := [("h", "G"), ("c1", "G")] })) ∧
    (join_player_to_session
        (remove_player_from_session
          { active_sessions := [("G",
              { game_name := "G", db_path := "/games/g.db", host_session_id := "h"
                host_ip := "ip", created_at := 0, last_activity := 1
                connected_players := [("c1",
                  { session_id := "c1", player_id := "p1", player_name := "Alice", joined_at := 1 })] })]
            session_to_game := [("h", "G"), ("c1", "G")] }
          "c1" 3).2
        "G" "p1" "Alice" "c2" 4).1 = true := by
  refine ⟨?_, ?_⟩
  · exact C9_duplicate_player_join_and_rejoin.1
      { active_sessions := [("G",
          { game_name := "G", db_path := "/games/g.db", host_session_id := "h"
            host_ip := "ip", created_at := 0, last_activity := 1
            connected_players := [("c1",
              { session_id := "c1", player_id := "p1", player_name := "Alice", joined_at := 1 })] })]
        session_to_game := [("h", "G"), ("c1", "G")] }
      "G"
      { game_name := "G", db_path := "/games/g.db", host_session_id := "h"
        host_ip := "ip", created_at := 0, last_activity := 1
        connected_players := [("c1",
          { session_id := "c1", player_id := "p1", player_name := "Alice", joined_at := 1 })] }
      "p1" "Alice" "c2" 2 rfl rfl
  · exact C9_duplicate_player_join_and_rejoin.2
      { active_sessions := [("G",
          { game_name := "G", db_path := "/games/g.db", host_session_id := "h"
            host_ip := "ip", created_at := 0, last_activity := 1
            connected_players := [("c1",
              { session_id := "c1", player_id := "p1", player_name := "Alice", joined_at := 1 })] })]
        session_to_game := [("h", "G"), ("c1", "G")] }
      "G"
      { game_name := "G", db_path := "/games/g.db", host_session_id := "h"
        host_ip := "ip", created_at := 0, last_activity := 1
        connected_players := [("c1",
          { session_id := "c1", player_id := "p1", player_name := "Alice", joined_at := 1 })] }
      "c1" "p1"
      { session_id := "c1", player_id := "p1", player_name := "Alice", joined_at := 1 }
      3 rfl (by decide) rfl rfl rfl (by decide) "Alice" "c2" 4

/-! ## Reconciliation (`cleanup_disconnected_sessions`) lemmas -/

theorem alookup_aerase_none {α : Type} {l : List (String × α)} {x : String} (k : String)
    (h : alookup l x = none) : alookup (aerase l k) x = none := by
  by_cases hk : k = x
  · subst hk; exact alookup_aerase_self l k
  · rw [alookup_aerase_ne l k x hk]; exact h

theorem alookup_mem_keys {α : Type} {l : List (String × α)} {x : String} {v : α}
    (h : alookup l x = some v) : x ∈ l.map Prod.fst := by
  induction l with
  | nil => simp [alookup] at h
  | cons hd t ih =>
    by_cases hx : hd.1 = x
    · simp [hx]
    · simp only [alookup, if_neg hx] at h
      simp [ih h]

theorem stop_hosting_session_cases (s : SessionManager) (sid : String) :
    (stop_hosting_session s sid).2 = s ∨
    ∃ g, alookup s.session_to_game sid = some g ∧ g ≠ "" ∧
      (stop_hosting_session s sid).2 =
        { active_sessions := aerase s.active_sessions g
          session_to_game := aerase s.session_to_game sid } := by
  unfold stop_hosting_session
  cases hlk : alookup s.session_to_game sid with
  | none => exact Or.inl rfl
  | some gn =>
    by_cases hg : gn = ""
    · simp [hg]
    · refine Or.inr ⟨gn, rfl, hg, ?_⟩
      simp [hg]

theorem remove_player_from_session_cases (s : SessionManager) (sid : String) (now : Nat) :
    (remove_player_from_session s sid now).2 = s ∨
    ∃ g sess conn, alookup s.session_to_game sid = some g ∧ g ≠ "" ∧
      alookup s.active_sessions g = some sess ∧
      alookup sess.connected_players sid = some conn ∧
      (remove_player_from_session s sid now).2 =
        { active_sessions := ains s.active_sessions g
            { sess with
                connected_players := aerase sess.connected_players sid
                last_activity := now }
          session_to_game := aerase s.session_to_game sid } := by
  unfold remove_player_from_session
  split
  next => exact Or.inl rfl
  next gn hlk =>
    by_cases hg : gn = ""
    · rw [if_pos hg]; exact Or.inl rfl
    · rw [if_neg hg]
      split
      next => exact Or.inl rfl
      next sess hsess =>
        split
        next => exact Or.inl rfl
        next conn hconn =>
          exact Or.inr ⟨gn, sess, conn, hlk, hg, hsess, hconn, rfl⟩

theorem cleanup_step_cases (now : Nat) (acc : SessionManager) (sid : String) :
    cleanup_step now acc sid = acc ∨
    cleanup_step now acc sid = (stop_hosting_session acc sid).2 ∨
    cleanup_step now acc sid = (remove_player_from_session acc sid now).2 := by
  unfold cleanup_step
  cases hlk : alookup acc.session_to_game sid with
  | none => exact Or.inl rfl
  | some gn =>
    by_cases hg : gn = ""
    · simp [hg]
    · simp only [if_neg hg]
      cases hsess : alookup acc.active_sessions gn with
      | none => exact Or.inl rfl
      | some sess =>
        by_cases hh : sid = sess.host_session_id
        · simp [hh]
        · simp [hh]

theorem stop_hosting_idx_none {s : SessionManager} {x : String} (sid : String)
    (h : alookup s.session_to_game x = none) :
    alookup (stop_hosting_session s sid).2.session_to_game x = none := by
  rcases stop_hosting_session_cases s sid with heq | ⟨g, _, _, heq⟩
  · rw [heq]; exact h
  · rw [heq]; exact alookup_aerase_none sid h

theorem stop_hosting_active_none {s : SessionManager} {g : String} (sid : String)
    (h : alookup s.active_sessions g = none) :
    alookup (stop_hosting_session s sid).2.active_sessions g = none := by
  rcases stop_hosting_session_cases s sid with heq | ⟨g1, _, _, heq⟩
  · rw [heq]; exact h
  · rw [heq]; exact alookup_aerase_none g1 h

theorem remove_player_idx_none {s : SessionManager} {x : String} (sid : String) (now : Nat)
    (h : alookup s.session_to_game x = none) :
    alookup (remove_player_from_session s sid now).2.session_to_game x = none := by
  rcases remove_player_from_session_cases s sid now with heq | ⟨g, sess, conn, _, _, _, _, heq⟩
  · rw [heq]; exact h
  · rw [heq]; exact alookup_aerase_none sid h

theorem remove_player_active_none {s : SessionManager} {g : String} (sid : String) (now : Nat)
    (h : alookup s.active_sessions g = none) :
    alookup (remove_player_from_session s sid now).2.active_sessions g = none := by
  rcases remove_player_from_session_cases s sid now with heq | ⟨g1, sess, conn, hg1, _, hsess, _, heq⟩
  · rw [heq]; exact h
  · rw [heq]
    have hne : g1 ≠ g := fun hc => by rw [hc, h] at hsess; cases hsess
    rw [alookup_ains_ne _ _ _ _ hne]
    exact h

theorem cleanup_step_idx_none {x : String} (now : Nat) (acc : SessionManager) (sid : String)
    (h : alookup acc.session_to_game x = none) :
    alookup (cleanup_step now acc sid).session_to_game x = none := by
  rcases cleanup_step_cases now acc sid with heq | heq | heq
  · rw [heq]; exact h
  · rw [heq]; exact stop_hosting_idx_none sid h
  · rw [heq]; exact remove_player_idx_none sid now h

theorem cleanup_step_active_none {g : String} (now : Nat) (acc : SessionManager) (sid : String)
    (h : alookup acc.active_sessions g = none) :
    alookup (cleanup_step now acc sid).active_sessions g = none := by
  rcases cleanup_step_cases now acc sid with heq | heq | heq
  · rw [heq]; exact h
  · rw [heq]; exact stop_hosting_active_none sid h
  · rw [heq]; exact remove_player_active_none sid now h

theorem foldl_cleanup_idx_none {x : String} (now : Nat) :
    ∀ (l : List String) (acc : SessionManager),
      alookup acc.session_to_game x = none →
      alookup (l.foldl (cleanup_step now) acc).session_to_game x = none := by
  intro l
  induction l with
  | nil => intro acc h; exact h
  | cons a t ih =>
    intro acc h
    exact ih _ (cleanup_step_idx_none now acc a h)

theorem foldl_cleanup_active_none {g : String} (now : Nat) :
    ∀ (l : List String) (acc : SessionManager),
      alookup acc.active_sessions g = none →
      alookup (l.foldl (cleanup_step now) acc).active_sessions g = none := by
  intro l
  induction l with
  | nil => intro acc h; exact h
  | cons a t ih =>
    intro acc h
    exact ih _ (cleanup_step_active_none now acc a h)

theorem stop_hosting_session_eval {s : SessionManager} {sid g : String}
    (hlk : alookup s.session_to_game sid = some g) (hg : g ≠ "") :
    stop_hosting_session s sid =
      (some g,
        { active_sessions := aerase s.active_sessions g
          session_to_game := aerase s.session_to_game sid }) := by
  unfold stop_hosting_session
  simp [hlk, hg]

theorem cleanup_step_cases_detail (now : Nat) (acc : SessionManager) (sid : String) :
    cleanup_step now acc sid = acc ∨
    (∃ g sess, alookup acc.session_to_game sid = some g ∧ g ≠ "" ∧
      alookup acc.active_sessions g = some sess ∧ sid = sess.host_session_id ∧
      cleanup_step now acc sid = (stop_hosting_session acc sid).2) ∨
    (∃ g sess, alookup acc.session_to_game sid = some g ∧ g ≠ "" ∧
      alookup acc.active_sessions g = some sess ∧ sid ≠ sess.host_session_id ∧
      cleanup_step now acc sid = (remove_player_from_session acc sid now).2) := by
  unfold cleanup_step
  split
  next => exact Or.inl rfl
  next gn hlk =>
    by_cases hg : gn = ""
    · rw [if_pos hg]; exact Or.inl rfl
    · rw [if_neg hg]
      split
      next => exact Or.inl rfl
      next sess hsess =>
        by_cases hh : sid = sess.host_session_id
        · rw [if_pos hh]
          exact Or.inr (Or.inl ⟨gn, sess, hlk, hg, hsess, hh, rfl⟩)
        · rw [if_neg hh]
          exact Or.inr (Or.inr ⟨gn, sess, hlk, hg, hsess, hh, rfl⟩)

/-- Invariant carried through the reconciliation fold for a joined player
`c` of game `g` whose host `h` stays live: the player's index entry and its
session (with `c` still connected) survive every step taken for another
connection id. -/
theorem cleanup_fold_removes_player (now : Nat) (connected : List String) (c g h : String)
    (hg : g ≠ "") (hh : connected.contains h = true) :
    ∀ (l : List String) (acc : SessionManager),
      (∀ x ∈ l, connected.contains x = false) →
      c ∈ l →
      alookup acc.session_to_game c = some g →
      (∃ sess, alookup acc.active_sessions g = some sess ∧
        sess.host_session_id = h ∧ (alookup sess.connected_players c).isSome) →
      alookup (l.foldl (cleanup_step now) acc).session_to_game c = none := by
  intro l
  induction l with
  | nil => intro acc _ hc _ _; cases hc
  | cons a t ih =>
    intro acc hdead hc hidx hI
    obtain ⟨sess, hsess, hhost, hconn⟩ := hI
    rw [List.foldl_cons]
    by_cases hac : a = c
    · subst hac
      have hdc : connected.contains a = false := hdead a (List.mem_cons_self a t)
      have hane : ¬ a = sess.host_session_id := by
        rw [hhost]
        intro he
        rw [he, hh] at hdc
        cases hdc
      obtain ⟨conn, hconn'⟩ := Option.isSome_iff_exists.mp hconn
      have hstep : cleanup_step now acc a = (remove_player_from_session acc a now).2 := by
        unfold cleanup_step
        simp [hidx, hg, hsess, hane]
      rw [hstep, remove_player_from_session_spec acc a g sess conn now hidx hg hsess hconn']
      exact foldl_cleanup_idx_none now t _ (alookup_aerase_self _ _)
    · have hct : c ∈ t := by
        rcases List.mem_cons.mp hc with h1 | h1
        · exact absurd h1.symm hac
        · exact h1
      have hdead' : ∀ x ∈ t, connected.contains x = false :=
        fun x hx => hdead x (List.mem_cons_of_mem a hx)
      rcases cleanup_step_cases_detail now acc a with heq | hcase | hcase
      · rw [heq]
        exact ih acc hdead' hct hidx ⟨sess, hsess, hhost, hconn⟩
      · obtain ⟨g1, sess1, hlk1, hg1, hsess1, hhost1, heq⟩ := hcase
        have hg1g : g1 ≠ g := by
          intro hgg
          subst hgg
          rw [hsess] at hsess1
          cases hsess1
          have : connected.contains a = false := hdead a (List.mem_cons_self a t)
          rw [hhost1, hhost, hh] at this
          cases this
        rw [heq, stop_hosting_session_eval hlk1 hg1]
        refine ih _ hdead' hct ?_ ⟨sess, ?_, hhost, hconn⟩
        · exact (alookup_aerase_ne _ _ _ hac).trans hidx
        · exact (alookup_aerase_ne _ _ _ hg1g).trans hsess
      · obtain ⟨g1, sess1, hlk1, hg1, hsess1, hhost1, heq⟩ := hcase
        rcases remove_player_from_session_cases acc a now with heq2 | hcase2
        · rw [heq, heq2]
          exact ih acc hdead' hct hidx ⟨sess, hsess, hhost, hconn⟩
        · obtain ⟨g2, sess2, conn2, hlk2, hg2, hsess2, hconn2, heq2⟩ := hcase2
          rw [heq, heq2]
          by_cases hgg : g2 = g
          · subst hgg
            rw [hsess] at hsess2
            cases hsess2
            refine ih _ hdead' hct ?_
              ⟨{ sess with
                  connected_players := aerase sess.connected_players a
                  last_activity := now }, ?_, hhost, ?_⟩
            · exact (alookup_aerase_ne _ _ _ hac).trans hidx
            · exact alookup_ains_self _ _ _
            · rw [alookup_aerase_ne _ _ _ hac]
              exact hconn
          · refine ih _ hdead' hct ?_ ⟨sess, ?_, hhost, hconn⟩
            · exact (alookup_aerase_ne _ _ _ hac).trans hidx
            · exact (alookup_ains_ne _ _ _ _ hgg).trans hsess

/-- Invariant carried through the reconciliation fold for a host connection
`c` of game `g`: once `c` is processed, both its index entry and the
session are gone; before that, no other step can remove them. -/
theorem cleanup_fold_removes_host (now : Nat) (c g : String) (hg : g ≠ "") :
    ∀ (l : List String) (acc : SessionManager),
      c ∈ l →
      alookup acc.session_to_game c = some g →
      (∃ sess, alookup acc.active_sessions g = some sess ∧ sess.host_session_id = c) →
      alookup (l.foldl (cleanup_step now) acc).session_to_game c = none ∧
      alookup (l.foldl (cleanup_step now) acc).active_sessions g = none := by
  intro l
  induction l with
  | nil => intro acc hc _ _; cases hc
  | cons a t ih =>
    intro acc hc hidx hI
    obtain ⟨sess, hsess, hhost⟩ := hI
    rw [List.foldl_cons]
    by_cases hac : a = c
    · subst hac
      have hstep : cleanup_step now acc a = (stop_hosting_session acc a).2 := by
        unfold cleanup_step
        simp only [hidx, if_neg hg, hsess]
        rw [if_pos hhost.symm]
      rw [hstep, stop_hosting_session_eval hidx hg]
      exact ⟨foldl_cleanup_idx_none now t _ (alookup_aerase_self _ _),
        foldl_cleanup_active_none now t _ (alookup_aerase_self _ _)⟩
    · have hct : c ∈ t := by
        rcases List.mem_cons.mp hc with h1 | h1
        · exact absurd h1.symm hac
        · exact h1
      rcases cleanup_step_cases_detail now acc a with heq | hcase | hcase
      · rw [heq]
        exact ih acc hct hidx ⟨sess, hsess, hhost⟩
      · obtain ⟨g1, sess1, hlk1, hg1, hsess1, hhost1, heq⟩ := hcase
        have hg1g : g1 ≠ g := by
          intro hgg
          subst hgg
          rw [hsess] at hsess1
          cases hsess1
          rw [hhost] at hhost1
          exact hac hhost1
        rw [heq, stop_hosting_session_eval hlk1 hg1]
        refine ih _ hct ((alookup_aerase_ne _ _ _ hac).trans hidx)
          ⟨sess, (alookup_aerase_ne _ _ _ hg1g).trans hsess, hhost⟩
      · obtain ⟨g1, sess1, hlk1, hg1, hsess1, hhost1, heq⟩ := hcase
        rcases remove_player_from_session_cases acc a now with heq2 | hcase2
        · rw [heq, heq2]
          exact ih acc hct hidx ⟨sess, hsess, hhost⟩
        · obtain ⟨g2, sess2, conn2, hlk2, hg2, hsess2, hconn2, heq2⟩ := hcase2
          rw [heq, heq2]
          by_cases hgg : g2 = g
          · subst hgg
            rw [hsess] at hsess2
            cases hsess2
            refine ih _ hct ((alookup_aerase_ne _ _ _ hac).trans hidx)
              ⟨{ sess with
                  connected_players := aerase sess.connected_players a
                  last_activity := now }, alookup_ains_self _ _ _, hhost⟩
          · refine ih _ hct ((alookup_aerase_ne _ _ _ hac).trans hidx)
              ⟨sess, (alookup_ains_ne _ _ _ _ hgg).trans hsess, hhost⟩

/-- C8 counterexample: host "h" of "Nexus" and its player "c1" are both
dead (live set empty).  The host's entry is processed first, removing the
session; at the player's turn the session is gone, so its reverse-index
entry survives: after `cleanup_disconnected_sessions` the registry still
indexes "c1", which is outside the live set. -/
theorem C8_counterexample_stale_player_entry :
    alookup
      (cleanup_disconnected_sessions
        { active_sessions := [("Nexus",
            { game_name := "Nexus", db_path := "/games/nexus.db", host_session_id := "h"
              host_ip := "192.168.0.10", created_at := 0, last_activity := 1
              connected_players := [("c1",
                { session_id := "c1", player_id := "p1", player_name := "Alice", joined_at := 1 })] })]
          session_to_game := [("h", "Nexus"), ("c1", "Nexus")] }
        [] 5).session_to_game "c1" = some "Nexus" := by
  exact rfl

/-- C8 (amended): reconciliation removes a dead connection's entry only
while its session still exists when it is processed.  Concretely:
(a) a dead joined player of a session whose host is live is removed from
the registry; (b) a dead host's session and index entry are removed.  A
dead player whose dead host was processed first keeps its entry (see the
counterexample), so the registry may still index connections outside the
live set. -/
theorem C8_cleanup_amended :
    (∀ (s : SessionManager) (connected : List String) (now : Nat) (c g h : String)
        (sess : GameSession),
      connected.contains c = false →
      alookup s.session_to_game c = some g → g ≠ "" →
      alookup s.active_sessions g = some sess →
      sess.host_session_id = h → connected.contains h = true →
      (alookup sess.connected_players c).isSome →
      alookup (cleanup_disconnected_sessions s connected now).session_to_game c = none) ∧
    (∀ (s : SessionManager) (connected : List String) (now : Nat) (c g : String)
        (sess : GameSession),
      connected.contains c = false →
      alookup s.session_to_game c = some g → g ≠ "" →
      alookup s.active_sessions g = some sess →
      sess.host_session_id = c →
      alookup (cleanup_disconnected_sessions s connected now).session_to_game c = none ∧
      alookup (cleanup_disconnected_sessions s connected now).active_sessions g = none) := by
  constructor
  · intro s connected now c g h sess hcc hidx hg hsess hhost hh hconn
    have hmem : c ∈ (s.session_to_game.map Prod.fst).filter
        (fun sid => ¬ connected.contains sid) := by
      refine List.mem_filter.mpr ⟨alookup_mem_keys hidx, ?_⟩
      simpa using hcc
    have hdead : ∀ x ∈ (s.session_to_game.map Prod.fst).filter
        (fun sid => ¬ connected.contains sid), connected.contains x = false := by
      intro x hx
      have := (List.mem_filter.mp hx).2
      simpa using this
    exact cleanup_fold_removes_player now connected c g h hg hh _ s hdead hmem hidx
      ⟨sess, hsess, hhost, hconn⟩
  · intro s connected now c g sess hcc hidx hg hsess hhost
    have hmem : c ∈ (s.session_to_game.map Prod.fst).filter
        (fun sid => ¬ connected.contains sid) := by
      refine List.mem_filter.mpr ⟨alookup_mem_keys hidx, ?_⟩
      simpa using hcc
    exact cleanup_fold_removes_host now c g hg _ s hmem hidx ⟨sess, hsess, hhost⟩

/-- C8 witness: on the two-connection "Nexus" state, (a) with the host
live and the player dead the player's entry is removed; (b) with the host
dead its session and entry are removed. -/
theorem C8_cleanup_amended_witness :
    alookup
      (cleanup_disconnected_sessions
        { active_sessions := [("Nexus",
            { game_name := "Nexus", db_path := "/games/nexus.db", host_session_id := "h"
              host_ip := "192.168.0.10", created_at := 0, last_activity := 1
              connected_players := [("c1",
                { session_id := "c1", player_id := "p1", player_name := "Alice", joined_at := 1 })] })]
          session_to_game := [("h", "Nexus"), ("c1", "Nexus")] }
        ["h"] 5).session_to_game "c1" = none ∧
    alookup
      (cleanup_disconnected_sessions
        { active_sessions := [("Nexus",
            { game_name := "Nexus", db_path := "/games/nexus.db", host_session_id := "h"
              host_ip := "192.168.0.10", created_at := 0, last_activity := 1
              connected_players := [("c1",
                { session_id := "c1", player_id := "p1", player_name := "Alice", joined_at := 1 })] })]
          session_to_game := [("h", "Nexus"), ("c1", "Nexus")] }
        [] 5).active_sessions "Nexus" = none := by
  constructor
  · exact C8_cleanup_amended.1
      { active_sessions := [("Nexus",
          { game_name := "Nexus", db_path := "/games/nexus.db", host_session_id := "h"
            host_ip := "192.168.0.10", created_at := 0, last_activity := 1
            connected_players := [("c1",
              { session_id := "c1", player_id := "p1", player_name := "Alice", joined_at := 1 })] })]
        session_to_game := [("h", "Nexus"), ("c1", "Nexus")] }
      ["h"] 5 "c1" "Nexus" "h"
      { game_name := "Nexus", db_path := "/games/nexus.db", host_session_id := "h"
        host_ip := "192.168.0.10", created_at := 0, last_activity := 1
        connected_players := [("c1",
          { session_id := "c1", player_id := "p1", player_name := "Alice", joined_at := 1 })] }
      rfl rfl (by decide) rfl rfl rfl rfl
  · exact (C8_cleanup_amended.2
      { active_sessions := [("Nexus",
          { game_name := "Nexus", db_path := "/games/nexus.db", host_session_id := "h"
            host_ip := "192.168.0.10", created_at := 0, last_activity := 1
            connected_players := [("c1",
              { session_id := "c1", player_id := "p1", player_name := "Alice", joined_at := 1 })] })]
        session_to_game := [("h", "Nexus"), ("c1", "Nexus")] }
      [] 5 "h" "Nexus"
      { game_name := "Nexus", db_path := "/games/nexus.db", host_session_id := "h"
        host_ip := "192.168.0.10", created_at := 0, last_activity := 1
        connected_players := [("c1",
          { session_id := "c1", player_id := "p1", player_name := "Alice", joined_at := 1 })] }
      rfl rfl (by decide) rfl rfl).2

/-! ## Objective ledger (`components/objective_catalog.py`)

The per-game SQLite store is modelled as `GameDB` with one list per table.
Column `type` is rendered as field `objType`.  The unique indexes
`idx_player_objectives_unique (playerId, objectiveKey)` and
`idx_game_public_objectives_slot (type, slotIndex)` of the schema appear as
hypotheses where a theorem needs them. -/

def PUBLIC_OBJECTIVE_TYPES : List String := ["public_tier1", "public_tier2"]

/-- Python `s.strip().lower()` on the ASCII type keys, implemented over the
character list so that it evaluates by kernel reduction (`String.trim` and
`String.toLower` recurse on byte positions and do not). -/
def strip_lower (s : String) : String :=
  ⟨((s.data.dropWhile Char.isWhitespace).reverse.dropWhile Char.isWhitespace).reverse.map
    Char.toLower⟩

/-- `PUBLIC_STAGE_LABELS.get(objective_type, 'Stage')`. -/
def public_stage_label (objective_type : String) : String :=
  if objective_type = "public_tier1" then "Stage I"
  else if objective_type = "public_tier2" then "Stage II"
  else "Stage"

structure ObjectiveDefinition where
  name : String
  objType : String
  victoryPoints : Int
  asset : String
  deriving DecidableEq

structure PlayerObjectiveRow where
  playerId : String
  objectiveKey : String
  isCompleted : Bool
  acquiredAt : Nat
  completedAt : Option Nat
  deriving DecidableEq

structure GamePublicObjectiveRow where
  objectiveKey : String
  objType : String
  slotIndex : Int
  addedBy : Option String
  addedAt : Nat
  deriving DecidableEq

structure PlayerRow where
  playerId : String
  name : String
  resources : Int
  influence : Int
  commodities : Int
  trade_goods : Int
  victoryPoints : Int
  faction : Option String
  deriving DecidableEq

structure GameDB where
  objectiveDefinitions : List (String × ObjectiveDefinition)
  playerObjectives : List PlayerObjectiveRow
  gamePublicObjectives : List GamePublicObjectiveRow
  players : List PlayerRow
  deriving DecidableEq

/-- `get_objective_definition`: primary-key lookup in `objectiveDefinitions`. -/
def get_objective_definition (db : GameDB) (objective_key : String) :
    Option ObjectiveDefinition :=
  alookup db.objectiveDefinitions objective_key

structure GamePublicEntry where
  key : String
  objType : String
  slotIndex : Int
  addedBy : Option String
  addedAt : Nat
  name : String
  victoryPoints : Int
  asset : String
  deriving DecidableEq

/-- `get_game_public_objective`: the slot row for the key joined with its
objective definition. -/
def get_game_public_objective (db : GameDB) (objective_key : String) :
    Option GamePublicEntry :=
  match db.gamePublicObjectives.find? (fun r => r.objectiveKey == objective_key) with
  | none => none
  | some row =>
    match alookup db.objectiveDefinitions row.objectiveKey with
    | none => none
    | some d =>
      some { key := row.objectiveKey, objType := row.objType, slotIndex := row.slotIndex
             addedBy := row.addedBy, addedAt := row.addedAt
             name := d.name, victoryPoints := d.victoryPoints, asset := d.asset }

/-- Slot scan of `assign_public_objective_to_game`:
`for candidate in range(5): if candidate not in used_indices: …`. -/
def pick_free_slot_index (used_indices : List Int) : Option Nat :=
  (List.range 5).find? (fun candidate => !(used_indices.contains (candidate : Int)))

structure AssignPublicResult where
  entry : GamePublicEntry
  isCompleted : Bool
  deriving DecidableEq

/-- Loop body of the player-row seeding in `assign_public_objective_to_game`:
`INSERT OR IGNORE INTO playerObjectives (playerId, objectiveKey, isCompleted)
VALUES (?, ?, 0)` for one player, against the unique index on
`(playerId, objectiveKey)`. -/
def seeded_player_objective_row (player_id objective_key : String) (now : Nat) :
    PlayerObjectiveRow :=
  { playerId := player_id, objectiveKey := objective_key, isCompleted := false
    acquiredAt := now, completedAt := none }

def assign_player_row_step (objective_key : String) (now : Nat)
    (rows : List PlayerObjectiveRow) (p : PlayerRow) : List PlayerObjectiveRow :=
  if (rows.find? (fun r =>
      r.playerId == p.playerId && r.objectiveKey == objective_key)).isSome then
    rows
  else
    rows ++ [seeded_player_objective_row p.playerId objective_key now]

/-- `assign_public_objective_to_game`: verify the key names a public
objective not already in play, scan for the lowest free slot of its tier,
insert the slot row, then `INSERT OR IGNORE` an uncompleted
`playerObjectives` row for every player in the game. -/
def assign_public_objective_to_game (db : GameDB) (player_id : Option String)
    (objective_key : String) (now : Nat) : Except String AssignPublicResult × GameDB :=
  match alookup db.objectiveDefinitions objective_key with
  | none => (Except.error "Objective not found", db)
  | some definition =>
    let objective_type := strip_lower definition.objType
    if ¬ PUBLIC_OBJECTIVE_TYPES.contains objective_type then
      (Except.error "Objective is not a public objective", db)
    else if (db.gamePublicObjectives.find? (fun r => r.objectiveKey == objective_key)).isSome then
      (Except.error "Objective already in play", db)
    else
      let used_indices :=
        (db.gamePublicObjectives.filter (fun r => r.objType == objective_type)).map
          (fun r => r.slotIndex)
      match pick_free_slot_index used_indices with
      | none =>
        (Except.error ("All " ++ public_stage_label objective_type ++ " Objectives are in Play"),
          db)
      | some slot_index =>
        let new_slot : GamePublicObjectiveRow :=
          { objectiveKey := objective_key, objType := objective_type
            slotIndex := (slot_index : Int), addedBy := player_id, addedAt := now }
        let db1 := { db with gamePublicObjectives := db.gamePublicObjectives ++ [new_slot] }
        let playerObjectives1 :=
          db1.players.foldl (assign_player_row_step objective_key now) db1.playerObjectives
        let db2 := { db1 with playerObjectives := playerObjectives1 }
        match get_game_public_objective db2 objective_key with
        | none => (Except.error "Objective assignment failed", db2)
        | some entry => (Except.ok { entry := entry, isCompleted := false }, db2)

/-- `UPDATE players SET victoryPoints = CASE WHEN victoryPoints - ? < 0 THEN 0
ELSE victoryPoints - ? END WHERE playerId = ?`. -/
def apply_victory_subtraction (players : List PlayerRow) (player_id : String) (delta : Int) :
    List PlayerRow :=
  players.map (fun p =>
    if p.playerId == player_id then
      { p with victoryPoints := if p.victoryPoints - delta < 0 then 0 else p.victoryPoints - delta }
    else p)

structure RemovedPublicObjective where
  objectiveKey : String
  objType : String
  slotIndex : Option Int
  adjustedPlayers : List String
  deriving DecidableEq

/-- Loop body of the removal transaction: for one `playerObjectives` row of
the removed key, reverse the completed player's points
(`if bool(row.get('isCompleted', 0)) and delta:`). -/
def removal_adjustment_step (delta : Int) (acc : List PlayerRow × List String)
    (row : PlayerObjectiveRow) : List PlayerRow × List String :=
  if row.isCompleted && delta != 0 then
    (apply_victory_subtraction acc.1 row.playerId delta, acc.2 ++ [row.playerId])
  else acc

/-- `remove_public_objective_from_game`: `none` unless the key names a
public objective with a slot row; otherwise reverse the point contribution
(clamped at zero) of every player whose row was completed, delete all
`playerObjectives` rows for the key and the slot row. -/
def remove_public_objective_from_game (db : GameDB) (objective_key : String) :
    Option RemovedPublicObjective × GameDB :=
  match alookup db.objectiveDefinitions objective_key with
  | none => (none, db)
  | some definition =>
    if ¬ PUBLIC_OBJECTIVE_TYPES.contains (strip_lower definition.objType) then (none, db)
    else
      match db.gamePublicObjectives.find? (fun r => r.objectiveKey == objective_key) with
      | none => (none, db)
      | some public_entry =>
        let player_rows := db.playerObjectives.filter (fun r => r.objectiveKey == objective_key)
        let delta := definition.victoryPoints
        let adjusted := player_rows.foldl (removal_adjustment_step delta) (db.players, [])
        let db1 := { db with
          players := adjusted.1
          playerObjectives := db.playerObjectives.filter (fun r => ¬ r.objectiveKey == objective_key)
          gamePublicObjectives :=
            db.gamePublicObjectives.filter (fun r => ¬ r.objectiveKey == objective_key) }
        (some { objectiveKey := objective_key, objType := public_entry.objType
                slotIndex := some public_entry.slotIndex, adjustedPlayers := adjusted.2 }, db1)

/-- `int(row['victoryPoints']) if row and row['victoryPoints'] is not None else 0`. -/
def player_victory_points (players : List PlayerRow) (player_id : String) : Int :=
  match players.find? (fun p => p.playerId == player_id) with
  | some p => p.victoryPoints
  | none => 0

/-- `player_meta.get('name') or player_id` and
`player_meta.get('faction') or 'none'` (empty strings are falsy). -/
def player_display_meta (players : List PlayerRow) (player_id : String) : String × String :=
  match players.find? (fun p => p.playerId == player_id) with
  | none => (player_id, "none")
  | some p =>
    ((if p.name = "" then player_id else p.name),
      (match p.faction with
       | none => "none"
       | some f => if f = "" then "none" else f))

/-- `UPDATE playerObjectives SET isCompleted = ?, completedAt = CASE WHEN ? = 1
THEN CURRENT_TIMESTAMP ELSE NULL END WHERE playerId = ? AND objectiveKey = ?`. -/
def set_completion_row_update (player_id objective_key : String) (is_completed : Bool)
    (now : Nat) (r : PlayerObjectiveRow) : PlayerObjectiveRow :=
  if r.playerId == player_id && r.objectiveKey == objective_key then
    { r with isCompleted := is_completed
             completedAt := if is_completed then some now else none }
  else r

/-- `UPDATE players SET victoryPoints = CASE WHEN victoryPoints + ? < 0 THEN 0
ELSE victoryPoints + ? END WHERE playerId = ?`. -/
def apply_victory_addition (players : List PlayerRow) (player_id : String)
    (adjustment : Int) : List PlayerRow :=
  players.map (fun p =>
    if p.playerId == player_id then
      { p with victoryPoints :=
          if p.victoryPoints + adjustment < 0 then 0 else p.victoryPoints + adjustment }
    else p)

structure ObjectiveStatePayload where
  name : String
  objType : String
  victoryPoints : Int
  asset : String
  isCompleted : Bool
  slotIndex : Option Int
  deriving DecidableEq

structure UpdateObjectiveResult where
  objective : ObjectiveStatePayload
  victoryPoints : Int
  playerName : String
  playerId : String
  playerFaction : String
  deriving DecidableEq

/-- `update_player_objective_state`: `none` when the player does not own the
key; a mutation-free result carrying the current total when the stored flag
already equals `is_completed`; otherwise flip the flag, stamp or clear
`completedAt`, and adjust the player's victory points by ± the objective's
value, clamped at zero. -/
def update_player_objective_state (db : GameDB) (player_id objective_key : String)
    (is_completed : Bool) (now : Nat) : Except String (Option UpdateObjectiveResult) × GameDB :=
  match alookup db.objectiveDefinitions objective_key with
  | none => (Except.error "Objective not found", db)
  | some definition =>
    match db.playerObjectives.find? (fun r =>
        r.playerId == player_id && r.objectiveKey == objective_key) with
    | none => (Except.ok none, db)
    | some owned =>
      let previously_completed := owned.isCompleted
      if previously_completed = is_completed then
        let slotIndex :=
          match get_game_public_objective db objective_key with
          | some entry => some entry.slotIndex
          | none => none
        let payload : ObjectiveStatePayload :=
          { name := definition.name, objType := definition.objType
            victoryPoints := definition.victoryPoints, asset := definition.asset
            isCompleted := previously_completed, slotIndex := slotIndex }
        let meta := player_display_meta db.players player_id
        (Except.ok (some { objective := payload
                           victoryPoints := player_victory_points db.players player_id
                           playerName := meta.1, playerId := player_id
                           playerFaction := meta.2 }), db)
      else
        let playerObjectives1 := db.playerObjectives.map
          (set_completion_row_update player_id objective_key is_completed now)
        let delta := definition.victoryPoints
        let adjustment := if is_completed then delta else -delta
        let players1 := apply_victory_addition db.players player_id adjustment
        let db1 := { db with playerObjectives := playerObjectives1, players := players1 }
        let slotIndex :=
          match get_game_public_objective db1 objective_key with
          | some entry => some entry.slotIndex
          | none => none
        let payload : ObjectiveStatePayload :=
          { name := definition.name, objType := definition.objType
            victoryPoints := definition.victoryPoints, asset := definition.asset
            isCompleted := is_completed, slotIndex := slotIndex }
        let meta := player_display_meta db1.players player_id
        (Except.ok (some { objective := payload
                           victoryPoints := player_victory_points players1 player_id
                           playerName := meta.1, playerId := player_id
                           playerFaction := meta.2 }), db1)

structure RemovePlayerObjectiveResult where
  victoryPoints : Int
  playerId : String
  objectiveKey : String
  removedFromGame : Bool
  removal : Option RemovedPublicObjective
  deriving DecidableEq

/-- `remove_player_objective`: for a public objective, delegate to
`remove_public_objective_from_game` (after checking ownership); otherwise
delete the player's row and, when it was completed, reverse the point value
(clamped at zero). -/
def remove_player_objective (db : GameDB) (player_id objective_key : String) :
    Option RemovePlayerObjectiveResult × GameDB :=
  let definition := alookup db.objectiveDefinitions objective_key
  let objective_type :=
    match definition with
    | some d => strip_lower d.objType
    | none => ""
  if PUBLIC_OBJECTIVE_TYPES.contains objective_type then
    if (db.playerObjectives.find? (fun r =>
        r.playerId == player_id && r.objectiveKey == objective_key)).isNone then
      (none, db)
    else
      match remove_public_objective_from_game db objective_key with
      | (none, db1) => (none, db1)
      | (some removal, db1) =>
        (some { victoryPoints := player_victory_points db1.players player_id
                playerId := player_id, objectiveKey := objective_key
                removedFromGame := true, removal := some removal }, db1)
  else
    match db.playerObjectives.find? (fun r =>
        r.playerId == player_id && r.objectiveKey == objective_key) with
    | none => (none, db)
    | some owned =>
      let was_completed := owned.isCompleted
      let playerObjectives1 := db.playerObjectives.filter (fun r =>
        ¬ (r.playerId == player_id && r.objectiveKey == objective_key))
      let players1 :=
        match definition with
        | some d =>
          if was_completed then apply_victory_subtraction db.players player_id d.victoryPoints
          else db.players
        | none => db.players
      let db1 := { db with playerObjectives := playerObjectives1, players := players1 }
      (some { victoryPoints := player_victory_points players1 player_id
              playerId := player_id, objectiveKey := objective_key
              removedFromGame := false, removal := none }, db1)

/-- Ledger operations whose sequences generate the reachable per-game
states for the objective tables. -/
inductive LedgerOp where
  | assignPublic (player_id : Option String) (objective_key : String) (now : Nat)
  | setCompletion (player_id objective_key : String) (is_completed : Bool) (now : Nat)
  | removePublic (objective_key : String)
  | removePlayer (player_id objective_key : String)

def apply_ledger_op (db : GameDB) : LedgerOp → GameDB
  | .assignPublic pid key now => (assign_public_objective_to_game db pid key now).2
  | .setCompletion pid key b now => (update_player_objective_state db pid key b now).2
  | .removePublic key => (remove_public_objective_from_game db key).2
  | .removePlayer pid key => (remove_player_objective db pid key).2

def apply_ledger_ops (db : GameDB) (ops : List LedgerOp) : GameDB :=
  ops.foldl apply_ledger_op db

/-! ## Victory-point non-negativity (C3) -/

/-- Invariant of §8 of the spec: every persisted victory-point total is
non-negative. -/
def victory_points_nonneg (db : GameDB) : Prop :=
  ∀ p ∈ db.players, 0 ≤ p.victoryPoints

theorem apply_victory_subtraction_nonneg {ps : List PlayerRow} {pid : String} {d : Int}
    (h : ∀ p ∈ ps, 0 ≤ p.victoryPoints) :
    ∀ p ∈ apply_victory_subtraction ps pid d, 0 ≤ p.victoryPoints := by
  intro p hp
  rcases List.mem_map.mp hp with ⟨q, hq, rfl⟩
  by_cases h1 : (q.playerId == pid) = true
  · rw [if_pos h1]
    by_cases h2 : q.victoryPoints - d < 0
    · simp only [if_pos h2]
      exact le_refl 0
    · simp only [if_neg h2]
      omega
  · rw [if_neg h1]
    exact h q hq

theorem removal_fold_nonneg (delta : Int) :
    ∀ (rows : List PlayerObjectiveRow) (acc : List PlayerRow × List String),
      (∀ p ∈ acc.1, 0 ≤ p.victoryPoints) →
      ∀ p ∈ (rows.foldl (removal_adjustment_step delta) acc).1, 0 ≤ p.victoryPoints := by
  intro rows
  induction rows with
  | nil => intro acc h; exact h
  | cons r t ih =>
    intro acc h
    rw [List.foldl_cons]
    apply ih
    unfold removal_adjustment_step
    by_cases hr : (r.isCompleted && delta != 0) = true
    · rw [if_pos hr]
      exact apply_victory_subtraction_nonneg h
    · rw [if_neg hr]
      exact h

theorem remove_public_objective_nonneg (db : GameDB) (objective_key : String)
    (h : victory_points_nonneg db) :
    victory_points_nonneg (remove_public_objective_from_game db objective_key).2 := by
  unfold remove_public_objective_from_game
  split
  · exact h
  · split
    · exact h
    · split
      · exact h
      · exact removal_fold_nonneg _ _ _ h

theorem assign_public_objective_players_eq (db : GameDB) (player_id : Option String)
    (objective_key : String) (now : Nat) :
    (assign_public_objective_to_game db player_id objective_key now).2.players = db.players := by
  unfold assign_public_objective_to_game
  dsimp only
  repeat' split
  all_goals rfl

theorem update_player_objective_state_nonneg (db : GameDB) (pid key : String) (b : Bool)
    (now : Nat) (h : victory_points_nonneg db) :
    victory_points_nonneg (update_player_objective_state db pid key b now).2 := by
  unfold update_player_objective_state
  dsimp only
  split
  · exact h
  next d hd =>
    split
    · exact h
    next owned hfind =>
      by_cases hpc : owned.isCompleted = b
      · rw [if_pos hpc]
        exact h
      · rw [if_neg hpc]
        intro p hp
        rcases List.mem_map.mp hp with ⟨q, hq, rfl⟩
        by_cases h1 : (q.playerId == pid) = true
        · rw [if_pos h1]
          dsimp only
          repeat' split
          all_goals omega
        · rw [if_neg h1]
          exact h q hq

theorem remove_player_objective_nonneg (db : GameDB) (pid key : String)
    (h : victory_points_nonneg db) :
    victory_points_nonneg (remove_player_objective db pid key).2 := by
  unfold remove_player_objective
  dsimp only
  cases hdef : alookup db.objectiveDefinitions key with
  | none =>
    rw [if_neg (by decide : ¬ PUBLIC_OBJECTIVE_TYPES.contains "" = true)]
    split
    · exact h
    · exact h
  | some d =>
    by_cases hpub : PUBLIC_OBJECTIVE_TYPES.contains (strip_lower d.objType) = true
    · rw [if_pos hpub]
      split
      · exact h
      · split
        next db1 heq =>
          have hrm := remove_public_objective_nonneg db key h
          rw [heq] at hrm
          exact hrm
        next removal db1 heq =>
          have hrm := remove_public_objective_nonneg db key h
          rw [heq] at hrm
          exact hrm
    · rw [if_neg hpub]
      split
      · exact h
      next owned hfind =>
        dsimp only
        split
        · exact apply_victory_subtraction_nonneg h
        · exact h

/-- C3: every persisted victory-point total stays non-negative under any
sequence of ledger operations (`setCompletion`, `removePublicObjective`,
and also `assignPublicObjective` / `removePlayerObjective`), because every
mutation of `victoryPoints` is clamped at zero. -/
theorem C3_victory_points_nonneg (ops : List LedgerOp) :
    ∀ db : GameDB, victory_points_nonneg db →
      victory_points_nonneg (apply_ledger_ops db ops) := by
  induction ops with
  | nil => intro db h; exact h
  | cons op t ih =>
    intro db h
    apply ih
    cases op with
    | assignPublic pid key now =>
      intro p hp
      rw [apply_ledger_op] at hp
      rw [assign_public_objective_players_eq] at hp
      exact h p hp
    | setCompletion pid key b now => exact update_player_objective_state_nonneg db pid key b now h
    | removePublic key => exact remove_public_objective_nonneg db key h
    | removePlayer pid key => exact remove_player_objective_nonneg db pid key h

/-! ## Public-objective slot invariant and tier capacity (C4) -/

theorem find?_range_first :
    ∀ (n : Nat) (p : Nat → Bool) (idx : Nat),
      (List.range n).find? p = some idx →
      idx < n ∧ p idx = true ∧ ∀ j, j < idx → p j = false := by
  intro n
  induction n with
  | zero => intro p idx h; simp [List.range_zero] at h
  | succ m ih =>
    intro p idx h
    rw [List.range_succ_eq_map] at h
    cases h0 : p 0 with
    | true =>
      rw [List.find?_cons_of_pos _ h0] at h
      obtain rfl : (0 : Nat) = idx := by simpa using h
      exact ⟨Nat.succ_pos m, h0, fun j hj => absurd hj (Nat.not_lt_zero j)⟩
    | false =>
      rw [List.find?_cons_of_neg _ (by simp [h0])] at h
      rw [List.find?_map] at h
      rcases Option.map_eq_some'.mp h with ⟨idx', hfind, hsucc⟩
      rcases ih (p ∘ Nat.succ) idx' hfind with ⟨h1, h2, h3⟩
      subst hsucc
      refine ⟨Nat.succ_lt_succ h1, h2, ?_⟩
      intro j hj
      cases j with
      | zero => exact h0
      | succ k => exact h3 k (Nat.lt_of_succ_lt_succ hj)

theorem pick_free_slot_index_spec {used : List Int} {idx : Nat}
    (h : pick_free_slot_index used = some idx) :
    idx < 5 ∧ used.contains (idx : Int) = false ∧
      ∀ j : Nat, j < idx → used.contains (j : Int) = true := by
  rcases find?_range_first 5 _ idx h with ⟨h1, h2, h3⟩
  refine ⟨h1, by simpa using h2, ?_⟩
  intro j hj
  simpa using h3 j hj

theorem pick_free_slot_index_eq_none {used : List Int}
    (h : ∀ i : Nat, i < 5 → used.contains (i : Int) = true) :
    pick_free_slot_index used = none := by
  rw [pick_free_slot_index, List.find?_eq_none]
  intro i hi
  simpa using h i (List.mem_range.mp hi)

theorem pick_free_slot_index_isSome {used : List Int} {i : Nat}
    (hi : i < 5) (hfree : used.contains (i : Int) = false) :
    (pick_free_slot_index used).isSome = true := by
  rw [pick_free_slot_index, List.find?_isSome]
  exact ⟨i, List.mem_range.mpr hi, by simpa using hfree⟩

/-- Schema invariant of §8: slot indices of each tier are in `{0,…,4}` with
no duplicates within a tier. -/
def slot_rows_invariant (rows : List GamePublicObjectiveRow) : Prop :=
  (∀ r ∈ rows, 0 ≤ r.slotIndex ∧ r.slotIndex < 5) ∧
  rows.Pairwise (fun a b => a.objType = b.objType → a.slotIndex ≠ b.slotIndex)

def public_slot_invariant (db : GameDB) : Prop :=
  slot_rows_invariant db.gamePublicObjectives

theorem assign_slots_cases (db : GameDB) (pid : Option String) (key : String) (now : Nat) :
    (assign_public_objective_to_game db pid key now).2.gamePublicObjectives =
      db.gamePublicObjectives ∨
    ∃ d idx, alookup db.objectiveDefinitions key = some d ∧
      pick_free_slot_index ((db.gamePublicObjectives.filter
        (fun r => r.objType == strip_lower d.objType)).map (fun r => r.slotIndex)) = some idx ∧
      (assign_public_objective_to_game db pid key now).2.gamePublicObjectives =
        db.gamePublicObjectives ++
          [{ objectiveKey := key, objType := strip_lower d.objType
             slotIndex := (idx : Int), addedBy := pid, addedAt := now }] := by
  unfold assign_public_objective_to_game
  dsimp only
  split
  · exact Or.inl rfl
  next d hd =>
    split
    · exact Or.inl rfl
    · split
      · exact Or.inl rfl
      · split
        next => exact Or.inl rfl
        next idx hpick =>
          split <;> exact Or.inr ⟨d, idx, hd, hpick, rfl⟩

theorem remove_public_slots_cases (db : GameDB) (key : String) :
    (remove_public_objective_from_game db key).2.gamePublicObjectives =
      db.gamePublicObjectives ∨
    (remove_public_objective_from_game db key).2.gamePublicObjectives =
      db.gamePublicObjectives.filter (fun r => ¬ r.objectiveKey == key) := by
  unfold remove_public_objective_from_game
  dsimp only
  repeat' split
  all_goals first | exact Or.inl rfl | exact Or.inr rfl

theorem update_state_slots_eq (db : GameDB) (pid key : String) (b : Bool) (now : Nat) :
    (update_player_objective_state db pid key b now).2.gamePublicObjectives =
      db.gamePublicObjectives := by
  unfold update_player_objective_state
  dsimp only
  repeat' split
  all_goals rfl

theorem remove_player_slots_cases (db : GameDB) (pid key : String) :
    (remove_player_objective db pid key).2.gamePublicObjectives = db.gamePublicObjectives ∨
    (remove_player_objective db pid key).2.gamePublicObjectives =
      (remove_public_objective_from_game db key).2.gamePublicObjectives := by
  unfold remove_player_objective
  dsimp only
  split
  · split
    · exact Or.inl rfl
    · split
      next db1 heq => exact Or.inr (by rw [heq])
      next removal db1 heq => exact Or.inr (by rw [heq])
  · split
    · exact Or.inl rfl
    · split
      next d hd =>
        split
        · exact Or.inl rfl
        · exact Or.inl rfl
      next => exact Or.inl rfl

theorem slot_rows_invariant_filter {rows : List GamePublicObjectiveRow}
    (h : slot_rows_invariant rows) (p : GamePublicObjectiveRow → Bool) :
    slot_rows_invariant (rows.filter p) := by
  refine ⟨fun r hr => h.1 r (List.mem_filter.mp hr).1, ?_⟩
  exact h.2.sublist (List.filter_sublist rows)

theorem slot_rows_invariant_append {rows : List GamePublicObjectiveRow}
    {d : ObjectiveDefinition} {idx : Nat} {key : String} {pid : Option String} {now : Nat}
    (h : slot_rows_invariant rows)
    (hpick : pick_free_slot_index ((rows.filter
      (fun r => r.objType == strip_lower d.objType)).map (fun r => r.slotIndex)) = some idx) :
    slot_rows_invariant (rows ++
      [{ objectiveKey := key, objType := strip_lower d.objType
         slotIndex := (idx : Int), addedBy := pid, addedAt := now }]) := by
  rcases pick_free_slot_index_spec hpick with ⟨hlt, hfree, _⟩
  constructor
  · intro r hr
    rcases List.mem_append.mp hr with hr | hr
    · exact h.1 r hr
    · rcases List.mem_singleton.mp hr with rfl
      refine ⟨Int.ofNat_nonneg idx, ?_⟩
      show ((idx : Nat) : Int) < 5
      exact_mod_cast hlt
  · rw [List.pairwise_append]
    refine ⟨h.2, List.pairwise_singleton _ _, ?_⟩
    intro a ha b hb
    rcases List.mem_singleton.mp hb with rfl
    intro htype hidx
    have hmem : (idx : Int) ∈ (rows.filter
        (fun r => r.objType == strip_lower d.objType)).map (fun r => r.slotIndex) := by
      refine List.mem_map.mpr ⟨a, List.mem_filter.mpr ⟨ha, ?_⟩, hidx⟩
      simp [htype]
    have : ((rows.filter (fun r => r.objType == strip_lower d.objType)).map
        (fun r => r.slotIndex)).contains (idx : Int) = true :=
      List.contains_iff_exists_mem_beq.mpr ⟨(idx : Int), hmem, by simp⟩
    rw [this] at hfree
    cases hfree

theorem apply_ledger_op_slot_invariant (db : GameDB) (op : LedgerOp)
    (h : public_slot_invariant db) : public_slot_invariant (apply_ledger_op db op) := by
  cases op with
  | assignPublic pid key now =>
    rcases assign_slots_cases db pid key now with heq | ⟨d, idx, hd, hpick, heq⟩
    · unfold public_slot_invariant
      rw [apply_ledger_op, heq]
      exact h
    · unfold public_slot_invariant
      rw [apply_ledger_op, heq]
      exact slot_rows_invariant_append h hpick
  | setCompletion pid key b now =>
    unfold public_slot_invariant
    rw [apply_ledger_op, update_state_slots_eq]
    exact h
  | removePublic key =>
    rcases remove_public_slots_cases db key with heq | heq
    · unfold public_slot_invariant
      rw [apply_ledger_op, heq]
      exact h
    · unfold public_slot_invariant
      rw [apply_ledger_op, heq]
      exact slot_rows_invariant_filter h _
  | removePlayer pid key =>
    rcases remove_player_slots_cases db pid key with heq | heq
    · unfold public_slot_invariant
      rw [apply_ledger_op, heq]
      exact h
    · unfold public_slot_invariant
      rw [apply_ledger_op, heq]
      rcases remove_public_slots_cases db key with heq2 | heq2
      · rw [heq2]; exact h
      · rw [heq2]; exact slot_rows_invariant_filter h _

/-- C4: (1) the tier/slot invariant — every occupied slot index lies in
`{0,…,4}` and no two slots of a tier share an index — is preserved by every
ledger operation, hence holds in every reachable store state; (2) assigning
a fresh public objective to a tier whose five slots are all occupied fails
with the tier-full error and leaves the store unchanged. -/
theorem C4_slot_invariant_and_tier_full :
    (∀ (ops : List LedgerOp) (db : GameDB), public_slot_invariant db →
      public_slot_invariant (apply_ledger_ops db ops)) ∧
    (∀ (db : GameDB) (pid : Option String) (key : String) (now : Nat) (d : ObjectiveDefinition),
      alookup db.objectiveDefinitions key = some d →
      PUBLIC_OBJECTIVE_TYPES.contains (strip_lower d.objType) = true →
      db.gamePublicObjectives.find? (fun r => r.objectiveKey == key) = none →
      (∀ i : Nat, i < 5 → ∃ r ∈ db.gamePublicObjectives,
        r.objType = strip_lower d.objType ∧ r.slotIndex = (i : Int)) →
      assign_public_objective_to_game db pid key now =
        (Except.error ("All " ++ public_stage_label (strip_lower d.objType) ++
          " Objectives are in Play"), db)) := by
  constructor
  · intro ops
    induction ops with
    | nil => intro db h; exact h
    | cons op t ih =>
      intro db h
      exact ih _ (apply_ledger_op_slot_invariant db op h)
  · intro db pid key now d hd hpub hnot hfull
    have hused : ∀ i : Nat, i < 5 →
        ((db.gamePublicObjectives.filter
          (fun r => r.objType == strip_lower d.objType)).map
            (fun r => r.slotIndex)).contains (i : Int) = true := by
      intro i hi
      rcases hfull i hi with ⟨r, hr, htype, hidx⟩
      refine List.contains_iff_exists_mem_beq.mpr ⟨(i : Int), ?_, by simp⟩
      refine List.mem_map.mpr ⟨r, List.mem_filter.mpr ⟨hr, by simp [htype]⟩, hidx⟩
    have hpick := pick_free_slot_index_eq_none hused
    unfold assign_public_objective_to_game
    simp only [hd]
    rw [if_neg (not_not_intro hpub)]
    rw [if_neg (by simp [hnot] : ¬ (db.gamePublicObjectives.find?
      (fun r => r.objectiveKey == key)).isSome = true)]
    simp only [hpick]

/-! ## Sample rows used by concrete witnesses -/

def samplePlayer (pid nm : String) (vp : Int) : PlayerRow :=
  { playerId := pid, name := nm, resources := 0, influence := 0, commodities := 0
    trade_goods := 0, victoryPoints := vp, faction := none }

def sampleObjectiveDefinition (t : String) (vp : Int) : ObjectiveDefinition :=
  { name := "Obj", objType := t, victoryPoints := vp, asset := "asset.png" }

def sampleSlot (key t : String) (idx : Int) : GamePublicObjectiveRow :=
  { objectiveKey := key, objType := t, slotIndex := idx, addedBy := none, addedAt := 0 }

def samplePlayerObjective (pid key : String) (c : Bool) : PlayerObjectiveRow :=
  { playerId := pid, objectiveKey := key, isCompleted := c, acquiredAt := 0
    completedAt := if c then some 0 else none }

/-- C3 witness: a store where "p1" has 1 point but a completed 2-point
objective; un-completing it and then removing the objective would naively
drive the total to −1, yet every total stays non-negative. -/
theorem C3_victory_points_nonneg_witness :
    victory_points_nonneg (apply_ledger_ops
      { objectiveDefinitions := [("obj1", sampleObjectiveDefinition "public_tier1" 2)]
        playerObjectives := [samplePlayerObjective "p1" "obj1" true]
        gamePublicObjectives := [sampleSlot "obj1" "public_tier1" 0]
        players := [samplePlayer "p1" "Alice" 1] }
      [LedgerOp.setCompletion "p1" "obj1" false 5, LedgerOp.removePublic "obj1"]) :=
  C3_victory_points_nonneg
    [LedgerOp.setCompletion "p1" "obj1" false 5, LedgerOp.removePublic "obj1"]
    { objectiveDefinitions := [("obj1", sampleObjectiveDefinition "public_tier1" 2)]
      playerObjectives := [samplePlayerObjective "p1" "obj1" true]
      gamePublicObjectives := [sampleSlot "obj1" "public_tier1" 0]
      players := [samplePlayer "p1" "Alice" 1] }
    (by unfold victory_points_nonneg; decide)

/-- C4 witness: the invariant holds after assigning two objectives to an
empty store, and assigning a sixth Stage I objective to a full tier fails
with the tier-full error leaving the store unchanged. -/
theorem C4_slot_invariant_witness :
    public_slot_invariant (apply_ledger_ops
      { objectiveDefinitions := [("obj1", sampleObjectiveDefinition "public_tier1" 1),
          ("obj2", sampleObjectiveDefinition "public_tier1" 1)]
        playerObjectives := [], gamePublicObjectives := []
        players := [samplePlayer "p1" "Alice" 0] }
      [LedgerOp.assignPublic (some "p1") "obj1" 1, LedgerOp.assignPublic (some "p1") "obj2" 2]) ∧
    assign_public_objective_to_game
      { objectiveDefinitions := [("obj6", sampleObjectiveDefinition "public_tier1" 1)]
        playerObjectives := []
        gamePublicObjectives := [sampleSlot "o0" "public_tier1" 0, sampleSlot "o1" "public_tier1" 1,
          sampleSlot "o2" "public_tier1" 2, sampleSlot "o3" "public_tier1" 3,
          sampleSlot "o4" "public_tier1" 4]
        players := [samplePlayer "p1" "Alice" 0] }
      none "obj6" 9 =
      (Except.error ("All " ++ public_stage_label (strip_lower "public_tier1") ++
        " Objectives are in Play"),
        { objectiveDefinitions := [("obj6", sampleObjectiveDefinition "public_tier1" 1)]
          playerObjectives := []
          gamePublicObjectives := [sampleSlot "o0" "public_tier1" 0, sampleSlot "o1" "public_tier1" 1,
            sampleSlot "o2" "public_tier1" 2, sampleSlot "o3" "public_tier1" 3,
            sampleSlot "o4" "public_tier1" 4]
          players := [samplePlayer "p1" "Alice" 0] }) := by
  constructor
  · exact C4_slot_invariant_and_tier_full.1
      [LedgerOp.assignPublic (some "p1") "obj1" 1, LedgerOp.assignPublic (some "p1") "obj2" 2]
      { objectiveDefinitions := [("obj1", sampleObjectiveDefinition "public_tier1" 1),
          ("obj2", sampleObjectiveDefinition "public_tier1" 1)]
        playerObjectives := [], gamePublicObjectives := []
        players := [samplePlayer "p1" "Alice" 0] }
      (by unfold public_slot_invariant slot_rows_invariant; exact ⟨by decide, List.Pairwise.nil⟩)
  · exact C4_slot_invariant_and_tier_full.2
      { objectiveDefinitions := [("obj6", sampleObjectiveDefinition "public_tier1" 1)]
        playerObjectives := []
        gamePublicObjectives := [sampleSlot "o0" "public_tier1" 0, sampleSlot "o1" "public_tier1" 1,
          sampleSlot "o2" "public_tier1" 2, sampleSlot "o3" "public_tier1" 3,
          sampleSlot "o4" "public_tier1" 4]
        players := [samplePlayer "p1" "Alice" 0] }
      none "obj6" 9 (sampleObjectiveDefinition "public_tier1" 1)
      rfl (by decide) rfl (by decide)

/-! ## Completion idempotence (C5) -/

theorem find?_congr_pred {α : Type} {p q : α → Bool} :
    ∀ (l : List α), (∀ a, p a = q a) → l.find? p = l.find? q := by
  intro l h
  induction l with
  | nil => rfl
  | cons a t ih =>
    cases hq : q a with
    | true =>
      rw [List.find?_cons_of_pos _ ((h a).trans hq), List.find?_cons_of_pos _ hq]
    | false =>
      rw [List.find?_cons_of_neg _ (by simp [(h a).trans hq]),
        List.find?_cons_of_neg _ (by simp [hq]), ih]

/-- Evaluation of the no-mutation branch of `update_player_objective_state`
(stored flag already equals the requested one). -/
theorem update_state_noop (db : GameDB) (pid key : String) (b : Bool) (now : Nat)
    (d : ObjectiveDefinition) (owned : PlayerObjectiveRow)
    (hd : alookup db.objectiveDefinitions key = some d)
    (hfind : db.playerObjectives.find? (fun r =>
      r.playerId == pid && r.objectiveKey == key) = some owned)
    (hb : owned.isCompleted = b) :
    update_player_objective_state db pid key b now =
      (Except.ok (some
        { objective :=
            { name := d.name, objType := d.objType, victoryPoints := d.victoryPoints
              asset := d.asset, isCompleted := owned.isCompleted
              slotIndex :=
                match get_game_public_objective db key with
                | some entry => some entry.slotIndex
                | none => none }
          victoryPoints := player_victory_points db.players pid
          playerName := (player_display_meta db.players pid).1
          playerId := pid
          playerFaction := (player_display_meta db.players pid).2 }), db) := by
  unfold update_player_objective_state
  simp only [hd, hfind, if_pos hb]

/-- Evaluation of the flipping branch of `update_player_objective_state`. -/
theorem update_state_flip (db : GameDB) (pid key : String) (b : Bool) (now : Nat)
    (d : ObjectiveDefinition) (owned : PlayerObjectiveRow)
    (hd : alookup db.objectiveDefinitions key = some d)
    (hfind : db.playerObjectives.find? (fun r =>
      r.playerId == pid && r.objectiveKey == key) = some owned)
    (hb : ¬ owned.isCompleted = b) :
    update_player_objective_state db pid key b now =
      (Except.ok (some
        { objective :=
            { name := d.name, objType := d.objType, victoryPoints := d.victoryPoints
              asset := d.asset, isCompleted := b
              slotIndex :=
                match get_game_public_objective
                  { db with
                      playerObjectives := db.playerObjectives.map
                        (set_completion_row_update pid key b now)
                      players := apply_victory_addition db.players pid
                        (if b then d.victoryPoints else -d.victoryPoints) } key with
                | some entry => some entry.slotIndex
                | none => none }
          victoryPoints := player_victory_points
            (apply_victory_addition db.players pid
              (if b then d.victoryPoints else -d.victoryPoints)) pid
          playerName := (player_display_meta
            (apply_victory_addition db.players pid
              (if b then d.victoryPoints else -d.victoryPoints)) pid).1
          playerId := pid
          playerFaction := (player_display_meta
            (apply_victory_addition db.players pid
              (if b then d.victoryPoints else -d.victoryPoints)) pid).2 }),
        { db with
            playerObjectives := db.playerObjectives.map
              (set_completion_row_update pid key b now)
            players := apply_victory_addition db.players pid
              (if b then d.victoryPoints else -d.victoryPoints) }) := by
  unfold update_player_objective_state
  simp only [hd, hfind, if_neg hb]

theorem set_completion_row_update_pred (pid key : String) (b : Bool) (now : Nat)
    (r : PlayerObjectiveRow) :
    ((set_completion_row_update pid key b now r).playerId == pid &&
      (set_completion_row_update pid key b now r).objectiveKey == key) =
    (r.playerId == pid && r.objectiveKey == key) := by
  unfold set_completion_row_update
  by_cases hc : (r.playerId == pid && r.objectiveKey == key) = true
  · rw [if_pos hc]
  · rw [if_neg hc]

/-- C5: when the stored completion flag already equals the requested one,
`setCompletion` mutates nothing and returns the player's current total; in
particular a second `setCompletion(…, true)` after a first returns the same
total with no double-counting. -/
theorem C5_set_completion_idempotent :
    (∀ (db : GameDB) (pid key : String) (b : Bool) (now : Nat)
        (d : ObjectiveDefinition) (owned : PlayerObjectiveRow),
      alookup db.objectiveDefinitions key = some d →
      db.playerObjectives.find? (fun r =>
        r.playerId == pid && r.objectiveKey == key) = some owned →
      owned.isCompleted = b →
      (update_player_objective_state db pid key b now).2 = db ∧
      ∃ res, (update_player_objective_state db pid key b now).1 = Except.ok (some res) ∧
        res.victoryPoints = player_victory_points db.players pid) ∧
    (∀ (db : GameDB) (pid key : String) (now now2 : Nat)
        (d : ObjectiveDefinition) (owned : PlayerObjectiveRow),
      alookup db.objectiveDefinitions key = some d →
      db.playerObjectives.find? (fun r =>
        r.playerId == pid && r.objectiveKey == key) = some owned →
      ∀ res1, (update_player_objective_state db pid key true now).1 = Except.ok (some res1) →
        (update_player_objective_state
            (update_player_objective_state db pid key true now).2 pid key true now2).2 =
          (update_player_objective_state db pid key true now).2 ∧
        ∃ res2, (update_player_objective_state
            (update_player_objective_state db pid key true now).2 pid key true now2).1 =
          Except.ok (some res2) ∧ res2.victoryPoints = res1.victoryPoints) := by
  constructor
  · intro db pid key b now d owned hd hfind hb
    rw [update_state_noop db pid key b now d owned hd hfind hb]
    exact ⟨rfl, ⟨_, rfl, rfl⟩⟩
  · intro db pid key now now2 d owned hd hfind res1 hres1
    cases hb : owned.isCompleted with
    | true =>
      have hfirst := update_state_noop db pid key true now d owned hd hfind hb
      rw [hfirst] at hres1 ⊢
      obtain rfl : _ = res1 := by simpa using hres1
      rw [update_state_noop db pid key true now2 d owned hd hfind hb]
      exact ⟨rfl, ⟨_, rfl, rfl⟩⟩
    | false =>
      have hfirst := update_state_flip db pid key true now d owned hd hfind (by simp [hb])
      rw [hfirst] at hres1 ⊢
      obtain rfl : _ = res1 := by simpa using hres1
      have hfind1 : ((db.playerObjectives.map
          (set_completion_row_update pid key true now)).find? (fun r =>
            r.playerId == pid && r.objectiveKey == key)) =
          some (set_completion_row_update pid key true now owned) := by
        rw [List.find?_map]
        have hcomp : ((fun r : PlayerObjectiveRow =>
            r.playerId == pid && r.objectiveKey == key) ∘
              set_completion_row_update pid key true now) =
            (fun r => r.playerId == pid && r.objectiveKey == key) := by
          funext r
          exact set_completion_row_update_pred pid key true now r
        rw [hcomp, hfind]
        rfl
      have howned1 : (set_completion_row_update pid key true now owned).isCompleted = true := by
        unfold set_completion_row_update
        rw [if_pos (List.find?_some hfind)]
      have hsecond := update_state_noop
        { db with
            playerObjectives := db.playerObjectives.map
              (set_completion_row_update pid key true now)
            players := apply_victory_addition db.players pid
              (if true then d.victoryPoints else -d.victoryPoints) }
        pid key true now2 d (set_completion_row_update pid key true now owned)
        hd hfind1 howned1
      rw [hsecond]
      exact ⟨rfl, ⟨_, rfl, rfl⟩⟩

/-- C5 witness: "p1" owns completed "obj1" worth 1 point with total 1;
`setCompletion(true)` twice leaves the store unchanged and returns total 1
both times. -/
theorem C5_set_completion_witness :
    ((update_player_objective_state
        { objectiveDefinitions := [("obj1", sampleObjectiveDefinition "public_tier1" 1)]
          playerObjectives := [samplePlayerObjective "p1" "obj1" true]
          gamePublicObjectives := [sampleSlot "obj1" "public_tier1" 0]
          players := [samplePlayer "p1" "Alice" 1] }
        "p1" "obj1" true 7).2 =
      { objectiveDefinitions := [("obj1", sampleObjectiveDefinition "public_tier1" 1)]
        playerObjectives := [samplePlayerObjective "p1" "obj1" true]
        gamePublicObjectives := [sampleSlot "obj1" "public_tier1" 0]
        players := [samplePlayer "p1" "Alice" 1] }) ∧
    ∃ res, (update_player_objective_state
        { objectiveDefinitions := [("obj1", sampleObjectiveDefinition "public_tier1" 1)]
          playerObjectives := [samplePlayerObjective "p1" "obj1" true]
          gamePublicObjectives := [sampleSlot "obj1" "public_tier1" 0]
          players := [samplePlayer "p1" "Alice" 1] }
        "p1" "obj1" true 7).1 = Except.ok (some res) ∧
      res.victoryPoints = player_victory_points [samplePlayer "p1" "Alice" 1] "p1" :=
  C5_set_completion_idempotent.1
    { objectiveDefinitions := [("obj1", sampleObjectiveDefinition "public_tier1" 1)]
      playerObjectives := [samplePlayerObjective "p1" "obj1" true]
      gamePublicObjectives := [sampleSlot "obj1" "public_tier1" 0]
      players := [samplePlayer "p1" "Alice" 1] }
    "p1" "obj1" true 7 (sampleObjectiveDefinition "public_tier1" 1)
    (samplePlayerObjective "p1" "obj1" true) rfl (by decide) (by decide)

/-! ## Public-objective removal (C2) -/

theorem removal_fold_players (delta : Int) :
    ∀ (rows : List PlayerObjectiveRow) (ps : List PlayerRow) (acc2 : List String),
      rows.Pairwise (fun a b => a.playerId ≠ b.playerId) →
      (rows.foldl (removal_adjustment_step delta) (ps, acc2)).1 =
        ps.map (fun p =>
          if (rows.any (fun row => row.playerId == p.playerId && row.isCompleted))
              && delta != 0 then
            { p with victoryPoints :=
                if p.victoryPoints - delta < 0 then 0 else p.victoryPoints - delta }
          else p) := by
  intro rows
  induction rows with
  | nil =>
    intro ps acc2 _
    simp
  | cons r t ih =>
    intro ps acc2 hpw
    rw [List.foldl_cons]
    by_cases hr : (r.isCompleted && delta != 0) = true
    · obtain ⟨hrc, hdz⟩ : r.isCompleted = true ∧ (delta != 0) = true := by simpa using hr
      have hstep : removal_adjustment_step delta (ps, acc2) r =
          (apply_victory_subtraction ps r.playerId delta, acc2 ++ [r.playerId]) := by
        unfold removal_adjustment_step
        rw [if_pos hr]
      rw [hstep]
      rw [ih (apply_victory_subtraction ps r.playerId delta) (acc2 ++ [r.playerId])
        (List.pairwise_cons.mp hpw).2]
      unfold apply_victory_subtraction
      rw [List.map_map]
      apply List.map_congr_left
      intro p hp
      simp only [Function.comp]
      by_cases hpid : (p.playerId == r.playerId) = true
      · have hpe : p.playerId = r.playerId := by simpa using hpid
        rw [if_pos hpid]
        have hanyt : (t.any (fun row => row.playerId == p.playerId && row.isCompleted))
            = false := by
          rw [List.any_eq_false]
          intro row hrow
          simp only [Bool.and_eq_true, beq_iff_eq, not_and]
          intro hrp
          exact absurd (hrp.trans hpe).symm ((List.pairwise_cons.mp hpw).1 row hrow)
        dsimp only
        rw [hanyt, Bool.false_and, if_neg (by decide : ¬ (false = true))]
        rw [List.any_cons]
        have hpid2 : (r.playerId == p.playerId) = true := by simp [hpe]
        rw [hpid2, hrc, hdz]
        simp
      · rw [if_neg hpid]
        have hsym : (r.playerId == p.playerId) = false := by
          cases h : (r.playerId == p.playerId) with
          | false => rfl
          | true =>
            have he : r.playerId = p.playerId := by simpa using h
            exact absurd (by simp [he] : (p.playerId == r.playerId) = true)
              (by simpa using hpid)
        rw [List.any_cons, hsym, Bool.false_and, Bool.false_or]
    · have hstep : removal_adjustment_step delta (ps, acc2) r = (ps, acc2) := by
        unfold removal_adjustment_step
        rw [if_neg hr]
      rw [hstep]
      rw [ih ps acc2 (List.pairwise_cons.mp hpw).2]
      apply List.map_congr_left
      intro p hp
      cases h1 : r.isCompleted with
      | false =>
        have hq : ((r.playerId == p.playerId) && r.isCompleted) = false := by
          rw [h1, Bool.and_false]
        rw [List.any_cons, hq, Bool.false_or]
      | true =>
        cases h2 : (delta != 0) with
        | false => simp [h2]
        | true => exact absurd (by rw [h1, h2]; rfl) hr

/-- C2: removing an in-play public objective always succeeds; in one
transaction it subtracts the objective's point value (clamped at zero) from
the total of every player whose row for the key was completed, deletes all
ownership rows for the key and deletes the slot row.  The uniqueness
hypothesis is the schema's unique index on `(playerId, objectiveKey)`. -/
theorem C2_remove_public_objective (db : GameDB) (key : String) (d : ObjectiveDefinition)
    (slotRow : GamePublicObjectiveRow)
    (hd : alookup db.objectiveDefinitions key = some d)
    (hpub : PUBLIC_OBJECTIVE_TYPES.contains (strip_lower d.objType) = true)
    (hslot : db.gamePublicObjectives.find? (fun r => r.objectiveKey == key) = some slotRow)
    (huniq : (db.playerObjectives.filter (fun r => r.objectiveKey == key)).Pairwise
      (fun a b => a.playerId ≠ b.playerId)) :
    (remove_public_objective_from_game db key).1.isSome = true ∧
    (remove_public_objective_from_game db key).2.gamePublicObjectives =
      db.gamePublicObjectives.filter (fun r => ¬ r.objectiveKey == key) ∧
    (remove_public_objective_from_game db key).2.playerObjectives =
      db.playerObjectives.filter (fun r => ¬ r.objectiveKey == key) ∧
    (remove_public_objective_from_game db key).2.players =
      db.players.map (fun p =>
        if ((db.playerObjectives.filter (fun r => r.objectiveKey == key)).any
              (fun row => row.playerId == p.playerId && row.isCompleted))
            && d.victoryPoints != 0 then
          { p with victoryPoints :=
              if p.victoryPoints - d.victoryPoints < 0 then 0
              else p.victoryPoints - d.victoryPoints }
        else p) := by
  unfold remove_public_objective_from_game
  simp only [hd]
  rw [if_neg (not_not_intro hpub)]
  simp only [hslot]
  refine ⟨?_, ?_, ?_, ?_⟩
  · simp
  · simp
  · simp
  · exact removal_fold_players d.victoryPoints _ db.players [] huniq

/-- C2 witness: objective "obj1" (2 points) occupies Stage I slot 0; "p1"
completed it (total 5), "p2" did not (total 0); removal succeeds, drops
"p1" to 3, leaves "p2" at 0, and deletes both ownership rows and the
slot row. -/
theorem C2_remove_public_objective_witness :
    (remove_public_objective_from_game
      { objectiveDefinitions := [("obj1", sampleObjectiveDefinition "public_tier1" 2)]
        playerObjectives := [samplePlayerObjective "p1" "obj1" true,
          samplePlayerObjective "p2" "obj1" false]
        gamePublicObjectives := [sampleSlot "obj1" "public_tier1" 0]
        players := [samplePlayer "p1" "Alice" 5, samplePlayer "p2" "Bob" 0] }
      "obj1").1.isSome = true ∧
    (remove_public_objective_from_game
      { objectiveDefinitions := [("obj1", sampleObjectiveDefinition "public_tier1" 2)]
        playerObjectives := [samplePlayerObjective "p1" "obj1" true,
          samplePlayerObjective "p2" "obj1" false]
        gamePublicObjectives := [sampleSlot "obj1" "public_tier1" 0]
        players := [samplePlayer "p1" "Alice" 5, samplePlayer "p2" "Bob" 0] }
      "obj1").2.gamePublicObjectives =
      ([sampleSlot "obj1" "public_tier1" 0].filter (fun r => ¬ r.objectiveKey == "obj1")) := by
  have h := C2_remove_public_objective
    { objectiveDefinitions := [("obj1", sampleObjectiveDefinition "public_tier1" 2)]
      playerObjectives := [samplePlayerObjective "p1" "obj1" true,
        samplePlayerObjective "p2" "obj1" false]
      gamePublicObjectives := [sampleSlot "obj1" "public_tier1" 0]
      players := [samplePlayer "p1" "Alice" 5, samplePlayer "p2" "Bob" 0] }
    "obj1" (sampleObjectiveDefinition "public_tier1" 2) (sampleSlot "obj1" "public_tier1" 0)
    rfl (by decide) (by decide) (by decide)
  exact ⟨h.1, h.2.1⟩

/-! ## Public-objective assignment (C7) -/

theorem find?_append_of_none {α : Type} {p : α → Bool} :
    ∀ {l1 l2 : List α}, l1.find? p = none → (l1 ++ l2).find? p = l2.find? p := by
  intro l1
  induction l1 with
  | nil => intro l2 _; rfl
  | cons a t ih =>
    intro l2 h
    rw [List.find?_cons] at h
    cases hpa : p a with
    | true => rw [hpa] at h; cases h
    | false =>
      rw [hpa] at h
      rw [List.cons_append, List.find?_cons_of_neg _ (by simp [hpa])]
      exact ih h

theorem assign_fold_append (key : String) (now : Nat) :
    ∀ (players : List PlayerRow) (rows : List PlayerObjectiveRow),
      ∃ newRows, players.foldl (assign_player_row_step key now) rows = rows ++ newRows ∧
        ∀ r ∈ newRows, r.objectiveKey = key ∧ r.isCompleted = false := by
  intro players
  induction players with
  | nil =>
    intro rows
    exact ⟨[], by simp, by simp⟩
  | cons p ps ih =>
    intro rows
    rw [List.foldl_cons]
    by_cases hf : ((rows.find? (fun r =>
        r.playerId == p.playerId && r.objectiveKey == key)).isSome) = true
    · have hstep : assign_player_row_step key now rows p = rows := by
        unfold assign_player_row_step
        rw [if_pos hf]
      rw [hstep]
      exact ih rows
    · have hstep : assign_player_row_step key now rows p =
          rows ++ [seeded_player_objective_row p.playerId key now] := by
        unfold assign_player_row_step
        rw [if_neg hf]
      rw [hstep]
      rcases ih (rows ++ [seeded_player_objective_row p.playerId key now]) with
        ⟨new1, heq, hprop⟩
      refine ⟨seeded_player_objective_row p.playerId key now :: new1,
        by rw [heq, List.append_assoc]; rfl, ?_⟩
      intro r hr
      rcases List.mem_cons.mp hr with rfl | h
      · exact ⟨rfl, rfl⟩
      · exact hprop r h

theorem assign_fold_covers (key : String) (now : Nat) :
    ∀ (players : List PlayerRow) (rows : List PlayerObjectiveRow) (p : PlayerRow), p ∈ players →
      ∃ r ∈ players.foldl (assign_player_row_step key now) rows,
        r.playerId = p.playerId ∧ r.objectiveKey = key := by
  intro players
  induction players with
  | nil => intro rows p hp; cases hp
  | cons q ps ih =>
    intro rows p hp
    rw [List.foldl_cons]
    rcases List.mem_cons.mp hp with rfl | hp'
    · have hexists : ∃ r ∈ assign_player_row_step key now rows p,
          r.playerId = p.playerId ∧ r.objectiveKey = key := by
        by_cases hf : ((rows.find? (fun r =>
            r.playerId == p.playerId && r.objectiveKey == key)).isSome) = true
        · rcases Option.isSome_iff_exists.mp hf with ⟨r0, hr0⟩
          have hmem := List.mem_of_find?_eq_some hr0
          have hpred : r0.playerId = p.playerId ∧ r0.objectiveKey = key := by
            simpa using List.find?_some hr0
          have hstep : assign_player_row_step key now rows p = rows := by
            unfold assign_player_row_step
            rw [if_pos hf]
          exact ⟨r0, by rw [hstep]; exact hmem, hpred⟩
        · have hstep : assign_player_row_step key now rows p =
              rows ++ [seeded_player_objective_row p.playerId key now] := by
            unfold assign_player_row_step
            rw [if_neg hf]
          refine ⟨seeded_player_objective_row p.playerId key now, ?_, rfl, rfl⟩
          rw [hstep]
          exact List.mem_append_right _ (List.mem_singleton.mpr rfl)
      rcases hexists with ⟨r0, hr0mem, hr0props⟩
      rcases assign_fold_append key now ps (assign_player_row_step key now rows p) with
        ⟨new1, heq, _⟩
      exact ⟨r0, by rw [heq]; exact List.mem_append_left _ hr0mem, hr0props⟩
    · exact ih _ p hp'

/-- Evaluation of the success path of `assign_public_objective_to_game`. -/
theorem assign_success_eval (db : GameDB) (pid : Option String) (key : String) (now : Nat)
    (d : ObjectiveDefinition) (idx : Nat)
    (hd : alookup db.objectiveDefinitions key = some d)
    (hpub : PUBLIC_OBJECTIVE_TYPES.contains (strip_lower d.objType) = true)
    (hnot : db.gamePublicObjectives.find? (fun r => r.objectiveKey == key) = none)
    (hpick : pick_free_slot_index ((db.gamePublicObjectives.filter
      (fun r => r.objType == strip_lower d.objType)).map (fun r => r.slotIndex)) = some idx) :
    assign_public_objective_to_game db pid key now =
      (Except.ok
        { entry := { key := key, objType := strip_lower d.objType, slotIndex := (idx : Int)
                     addedBy := pid, addedAt := now
                     name := d.name, victoryPoints := d.victoryPoints, asset := d.asset }
          isCompleted := false },
        { db with
            gamePublicObjectives := db.gamePublicObjectives ++
              [{ objectiveKey := key, objType := strip_lower d.objType
                 slotIndex := (idx : Int), addedBy := pid, addedAt := now }]
            playerObjectives := db.players.foldl (assign_player_row_step key now)
              db.playerObjectives }) := by
  have hget : get_game_public_objective
      { db with
          gamePublicObjectives := db.gamePublicObjectives ++
            [{ objectiveKey := key, objType := strip_lower d.objType
               slotIndex := (idx : Int), addedBy := pid, addedAt := now }]
          playerObjectives := db.players.foldl (assign_player_row_step key now)
            db.playerObjectives } key =
      some { key := key, objType := strip_lower d.objType, slotIndex := (idx : Int)
             addedBy := pid, addedAt := now
             name := d.name, victoryPoints := d.victoryPoints, asset := d.asset } := by
    unfold get_game_public_objective
    dsimp only
    rw [find?_append_of_none hnot]
    rw [List.find?_cons_of_pos _ (by simp)]
    simp only [hd]
  unfold assign_public_objective_to_game
  simp only [hd]
  rw [if_neg (not_not_intro hpub)]
  rw [if_neg (by simp [hnot] : ¬ (db.gamePublicObjectives.find?
    (fun r => r.objectiveKey == key)).isSome = true)]
  simp only [hpick]
  simp only [hget]

/-- C7: a successful `assignPublicObjective` inserts the slot with the
lowest index of `{0,…,4}` free in the objective's tier at the start of the
transaction, and in the same transaction inserts (or leaves untouched) an
ownership row with `isCompleted = false` for every player in the game. -/
theorem C7_assign_lowest_free_slot (db : GameDB) (pid : Option String) (key : String)
    (now : Nat) (d : ObjectiveDefinition)
    (hd : alookup db.objectiveDefinitions key = some d)
    (hpub : PUBLIC_OBJECTIVE_TYPES.contains (strip_lower d.objType) = true)
    (hnot : db.gamePublicObjectives.find? (fun r => r.objectiveKey == key) = none)
    (hfree : ∃ i : Nat, i < 5 ∧ ((db.gamePublicObjectives.filter
      (fun r => r.objType == strip_lower d.objType)).map
        (fun r => r.slotIndex)).contains (i : Int) = false) :
    ∃ idx : Nat,
      idx < 5 ∧
      ((db.gamePublicObjectives.filter (fun r => r.objType == strip_lower d.objType)).map
        (fun r => r.slotIndex)).contains (idx : Int) = false ∧
      (∀ j : Nat, j < idx → ((db.gamePublicObjectives.filter
        (fun r => r.objType == strip_lower d.objType)).map
          (fun r => r.slotIndex)).contains (j : Int) = true) ∧
      (∃ res, (assign_public_objective_to_game db pid key now).1 = Except.ok res ∧
        res.entry.slotIndex = (idx : Int) ∧ res.isCompleted = false) ∧
      (assign_public_objective_to_game db pid key now).2.gamePublicObjectives =
        db.gamePublicObjectives ++
          [{ objectiveKey := key, objType := strip_lower d.objType
             slotIndex := (idx : Int), addedBy := pid, addedAt := now }] ∧
      (∃ newRows, (assign_public_objective_to_game db pid key now).2.playerObjectives =
        db.playerObjectives ++ newRows ∧
        ∀ r ∈ newRows, r.objectiveKey = key ∧ r.isCompleted = false) ∧
      ∀ p ∈ db.players, ∃ r ∈ (assign_public_objective_to_game db pid key now).2.playerObjectives,
        r.playerId = p.playerId ∧ r.objectiveKey = key := by
  rcases hfree with ⟨i, hi5, hifree⟩
  have hsome := pick_free_slot_index_isSome hi5 hifree
  rcases Option.isSome_iff_exists.mp hsome with ⟨idx, hpick⟩
  rcases pick_free_slot_index_spec hpick with ⟨hlt, hfreeidx, hlow⟩
  have heval := assign_success_eval db pid key now d idx hd hpub hnot hpick
  refine ⟨idx, hlt, hfreeidx, hlow, ?_, ?_, ?_, ?_⟩
  · exact ⟨_, by rw [heval], rfl, rfl⟩
  · rw [heval]
  · rw [heval]
    exact assign_fold_append key now db.players db.playerObjectives
  · intro p hp
    rw [heval]
    exact assign_fold_covers key now db.players db.playerObjectives p hp

/-- C7 witness: with Stage I slot 0 occupied by "o0", assigning "obj1"
takes slot index 1 and seeds an uncompleted row for the (single) player. -/
theorem C7_assign_lowest_free_slot_witness :
    ∃ idx : Nat,
      idx < 5 ∧
      (([sampleSlot "o0" "public_tier1" 0].filter (fun r =>
        r.objType == strip_lower (sampleObjectiveDefinition "public_tier1" 1).objType)).map
          (fun r => r.slotIndex)).contains (idx : Int) = false ∧
      (∀ j : Nat, j < idx → (([sampleSlot "o0" "public_tier1" 0].filter (fun r =>
        r.objType == strip_lower (sampleObjectiveDefinition "public_tier1" 1).objType)).map
          (fun r => r.slotIndex)).contains (j : Int) = true) ∧
      (∃ res, (assign_public_objective_to_game
          { objectiveDefinitions := [("obj1", sampleObjectiveDefinition "public_tier1" 1)]
            playerObjectives := []
            gamePublicObjectives := [sampleSlot "o0" "public_tier1" 0]
            players := [samplePlayer "p1" "Alice" 0] }
          (some "p1") "obj1" 4).1 = Except.ok res ∧
        res.entry.slotIndex = (idx : Int) ∧ res.isCompleted = false) ∧
      (assign_public_objective_to_game
          { objectiveDefinitions := [("obj1", sampleObjectiveDefinition "public_tier1" 1)]
            playerObjectives := []
            gamePublicObjectives := [sampleSlot "o0" "public_tier1" 0]
            players := [samplePlayer "p1" "Alice" 0] }
          (some "p1") "obj1" 4).2.gamePublicObjectives =
        [sampleSlot "o0" "public_tier1" 0] ++
          [{ objectiveKey := "obj1"
             objType := strip_lower (sampleObjectiveDefinition "public_tier1" 1).objType
             slotIndex := (idx : Int), addedBy := some "p1", addedAt := 4 }] ∧
      (∃ newRows, (assign_public_objective_to_game
          { objectiveDefinitions := [("obj1", sampleObjectiveDefinition "public_tier1" 1)]
            playerObjectives := []
            gamePublicObjectives := [sampleSlot "o0" "public_tier1" 0]
            players := [samplePlayer "p1" "Alice" 0] }
          (some "p1") "obj1" 4).2.playerObjectives = [] ++ newRows ∧
        ∀ r ∈ newRows, r.objectiveKey = "obj1" ∧ r.isCompleted = false) ∧
      ∀ p ∈ [samplePlayer "p1" "Alice" 0], ∃ r ∈ (assign_public_objective_to_game
          { objectiveDefinitions := [("obj1", sampleObjectiveDefinition "public_tier1" 1)]
            playerObjectives := []
            gamePublicObjectives := [sampleSlot "o0" "public_tier1" 0]
            players := [samplePlayer "p1" "Alice" 0] }
          (some "p1") "obj1" 4).2.playerObjectives,
        r.playerId = p.playerId ∧ r.objectiveKey = "obj1" :=
  C7_assign_lowest_free_slot
    { objectiveDefinitions := [("obj1", sampleObjectiveDefinition "public_tier1" 1)]
      playerObjectives := []
      gamePublicObjectives := [sampleSlot "o0" "public_tier1" 0]
      players := [samplePlayer "p1" "Alice" 0] }
    (some "p1") "obj1" 4 (sampleObjectiveDefinition "public_tier1" 1)
    rfl (by decide) (by decide) ⟨1, by decide, by decide⟩

/-! ## Exploration cards (`components/exploration_catalog.py`, `routes/cards.py`)

The per-game exploration tables: `explorationDefinitions` (column `type`,
the biome, is rendered as `explType`), `playerExplorationCards` (unique
index on `(playerId, explorationKey)`) and `planetAttachments`.  Python's
`str.lower()` / `str.capitalize()` are modelled over the character list so
they evaluate by kernel reduction, and `random.choice` is modelled by an
externally supplied index. -/

def str_lower (s : String) : String :=
  ⟨s.data.map Char.toLower⟩

def str_capitalize (s : String) : String :=
  match s.data with
  | [] => ""
  | c :: t => ⟨Char.toUpper c :: t.map Char.toLower⟩

structure ExplorationDefinition where
  name : String
  explType : String
  subtype : String
  asset : String
  deriving DecidableEq

structure PlayerExplorationCardRow where
  playerId : String
  explorationKey : String
  isExhausted : Bool
  acquiredAt : Nat
  deriving DecidableEq

structure PlanetAttachmentRow where
  playerId : String
  planetKey : String
  explorationKey : String
  attachedAt : Nat
  deriving DecidableEq

structure CardsDB where
  explorationDefinitions : List (String × ExplorationDefinition)
  playerExplorationCards : List PlayerExplorationCardRow
  planetAttachments : List PlanetAttachmentRow
  deriving DecidableEq

/-- `get_exploration_definition`: primary-key lookup. -/
def get_exploration_definition (db : CardsDB) (exploration_key : String) :
    Option ExplorationDefinition :=
  alookup db.explorationDefinitions exploration_key

/-- `add_player_exploration_card`: `none` when the definition is missing or
the player already owns the card (the returned definition carries
`isExhausted = False` in the source payload); raises
`ExplorationCatalogError` when the subtype is "attach". -/
def add_player_exploration_card (db : CardsDB) (player_id exploration_key : String)
    (now : Nat) : Except String (Option ExplorationDefinition) × CardsDB :=
  match get_exploration_definition db exploration_key with
  | none => (Except.ok none, db)
  | some definition =>
    if definition.subtype = "attach" then
      (Except.error "Attachments must be assigned to a planet", db)
    else if (db.playerExplorationCards.find? (fun r =>
        r.playerId == player_id && r.explorationKey == exploration_key)).isSome then
      (Except.ok none, db)
    else
      (Except.ok (some definition),
        { db with playerExplorationCards := db.playerExplorationCards ++
            [{ playerId := player_id, explorationKey := exploration_key
               isExhausted := false, acquiredAt := now }] })

structure PlanetAttachmentEntry where
  planetKey : String
  key : String
  name : String
  explType : String
  subtype : String
  asset : String
  attachedAt : Nat
  deriving DecidableEq

/-- `add_planet_attachment`: `none` when the definition is missing or the
`(player, planet, card)` triple already exists; raises
`ExplorationCatalogError` when the subtype is not "attach"; otherwise
inserts the row and returns the re-selected joined row. -/
def add_planet_attachment (db : CardsDB) (player_id planet_key exploration_key : String)
    (now : Nat) : Except String (Option PlanetAttachmentEntry) × CardsDB :=
  match get_exploration_definition db exploration_key with
  | none => (Except.ok none, db)
  | some definition =>
    if ¬ definition.subtype = "attach" then
      (Except.error "Only attachments can be assigned to planets", db)
    else if (db.planetAttachments.find? (fun r =>
        r.playerId == player_id && r.planetKey == planet_key &&
          r.explorationKey == exploration_key)).isSome then
      (Except.ok none, db)
    else
      let db1 : CardsDB := { db with planetAttachments := db.planetAttachments ++
        [{ playerId := player_id, planetKey := planet_key
           explorationKey := exploration_key, attachedAt := now }] }
      match db1.planetAttachments.find? (fun r =>
          r.playerId == player_id && r.planetKey == planet_key &&
            r.explorationKey == exploration_key) with
      | none => (Except.ok none, db1)
      | some row =>
        match alookup db1.explorationDefinitions row.explorationKey with
        | none => (Except.ok none, db1)
        | some d =>
          (Except.ok (some { planetKey := row.planetKey, key := row.explorationKey
                             name := d.name, explType := d.explType, subtype := d.subtype
                             asset := d.asset, attachedAt := row.attachedAt }), db1)

/-- `list_available_exploration_definitions` (without the optional
`exclude_planet_key`, which `restore_relic_from_fragments` does not use):
definitions of the requested subtypes not owned by the player. -/
def list_available_exploration_definitions (db : CardsDB) (player_id : String)
    (subtypes : List String) : List (String × ExplorationDefinition) :=
  if subtypes = [] then []
  else
    db.explorationDefinitions.filter (fun kv =>
      subtypes.contains kv.2.subtype &&
      !(db.playerExplorationCards.any (fun r =>
        r.playerId == player_id && r.explorationKey == kv.1)))

/-- Validation rows of `restore_relic_from_fragments`: the player's card
rows for the requested keys joined with their definitions. -/
def fragment_rows (db : CardsDB) (player_id : String) (unique_keys : List String) :
    List (String × ExplorationDefinition) :=
  (db.playerExplorationCards.filter (fun r =>
      r.playerId == player_id && unique_keys.contains r.explorationKey)).filterMap
    (fun r =>
      match alookup db.explorationDefinitions r.explorationKey with
      | some d => some (r.explorationKey, d)
      | none => none)

/-- Transaction phase of `restore_relic_from_fragments`: `DELETE` the
fragment rows, roll back when the deleted count differs from the number of
requested keys, otherwise `INSERT` the drawn relic and commit. -/
def restore_relic_tx (db : CardsDB) (player_id : String) (unique_keys : List String)
    (relic_key : String) (now : Nat) : Except String Unit × CardsDB :=
  let deleted_count := (db.playerExplorationCards.filter (fun r =>
    r.playerId == player_id && unique_keys.contains r.explorationKey)).length
  if ¬ deleted_count = unique_keys.length then
    (Except.error "Selected relic fragments not available", db)
  else
    (Except.ok (),
      { db with playerExplorationCards :=
          (db.playerExplorationCards.filter (fun r =>
            ¬ (r.playerId == player_id && unique_keys.contains r.explorationKey))) ++
          [{ playerId := player_id, explorationKey := relic_key
             isExhausted := false, acquiredAt := now }] })

/-- `restore_relic_from_fragments` (`routes/cards.py`): validate the three
fragment keys, draw a relic from the available pool (`random.choice`
modelled by `pick_index`), then run the delete/insert transaction.  The
result carries the restored relic's key and the capitalized restored type;
the non-frontier biome set is modelled by deduplication of the lowered type
list. -/
def restore_relic_from_fragments (db : CardsDB) (player_id : String)
    (fragment_keys : List String) (pick_index : Nat) (now : Nat) :
    Except String (String × String) × CardsDB :=
  if ¬ fragment_keys.length = 3 then
    (Except.error "Exactly three relic fragments are required", db)
  else
    let unique_keys := fragment_keys
    if ¬ unique_keys.dedup.length = 3 then
      (Except.error "Fragments must be distinct", db)
    else
      let rows := fragment_rows db player_id unique_keys
      if ¬ rows.length = 3 then
        (Except.error "Selected relic fragments not found", db)
      else if rows.any (fun kv => ¬ kv.2.subtype = "relic_fragment") then
        (Except.error "Only relic fragments can be restored", db)
      else
        let non_frontier_types := ((rows.filter (fun kv =>
          ¬ str_lower kv.2.explType = "frontier")).map
            (fun kv => str_lower kv.2.explType)).dedup
        if non_frontier_types.length > 1 then
          (Except.error "Fragments must share a planet type. Frontier fragments are wild.", db)
        else
          let restored_type := non_frontier_types.headD "Frontier"
          let available_relics := list_available_exploration_definitions db player_id ["relic"]
          match available_relics.get? (pick_index % available_relics.length) with
          | none => (Except.error "No relics remaining to restore", db)
          | some relic_choice =>
            match restore_relic_tx db player_id unique_keys relic_choice.1 now with
            | (Except.error e, db1) => (Except.error e, db1)
            | (Except.ok _, db1) =>
              (Except.ok (relic_choice.1, str_capitalize restored_type), db1)

/-! ## Attachment/inventory partition (C10) -/

/-- C10: for an existing exploration definition, adding it to the player's
card inventory raises an error exactly when its subtype is "attach", and
attaching it to a planet raises an error exactly when its subtype is not
"attach". -/
theorem C10_attachment_partition (db : CardsDB) (pid planet key : String) (now : Nat)
    (d : ExplorationDefinition)
    (hd : get_exploration_definition db key = some d) :
    ((∃ e, (add_player_exploration_card db pid key now).1 = Except.error e) ↔
      d.subtype = "attach") ∧
    ((∃ e, (add_planet_attachment db pid planet key now).1 = Except.error e) ↔
      ¬ d.subtype = "attach") := by
  constructor
  · constructor
    · rintro ⟨e, he⟩
      by_contra hs
      unfold add_player_exploration_card at he
      simp only [hd] at he
      rw [if_neg hs] at he
      by_cases hf : ((db.playerExplorationCards.find? (fun r =>
          r.playerId == pid && r.explorationKey == key)).isSome) = true
      · rw [if_pos hf] at he
        simp at he
      · rw [if_neg hf] at he
        simp at he
    · intro hs
      refine ⟨"Attachments must be assigned to a planet", ?_⟩
      unfold add_player_exploration_card
      simp only [hd]
      rw [if_pos hs]
  · constructor
    · rintro ⟨e, he⟩
      intro hs
      unfold add_planet_attachment at he
      simp only [hd] at he
      rw [if_neg (not_not_intro hs)] at he
      by_cases hf : ((db.planetAttachments.find? (fun r =>
          r.playerId == pid && r.planetKey == planet &&
            r.explorationKey == key)).isSome) = true
      · rw [if_pos hf] at he
        simp at he
      · rw [if_neg hf] at he
        split at he
        · simp at he
        · split at he
          · simp at he
          · simp at he
    · intro hs
      refine ⟨"Only attachments can be assigned to planets", ?_⟩
      unfold add_planet_attachment
      simp only [hd]
      rw [if_pos hs]

/-- C10 witness: "att1" (subtype "attach") cannot enter the inventory, and
"f1" (subtype "relic_fragment") cannot be attached to a planet. -/
theorem C10_attachment_partition_witness :
    (∃ e, (add_player_exploration_card
      { explorationDefinitions := [
          ("f1", { name := "F1", explType := "Cultural", subtype := "relic_fragment"
                   asset := "a" }),
          ("att1", { name := "A", explType := "none", subtype := "attach", asset := "t" })]
        playerExplorationCards := [], planetAttachments := [] }
      "p1" "att1" 3).1 = Except.error e) ∧
    (∃ e, (add_planet_attachment
      { explorationDefinitions := [
          ("f1", { name := "F1", explType := "Cultural", subtype := "relic_fragment"
                   asset := "a" }),
          ("att1", { name := "A", explType := "none", subtype := "attach", asset := "t" })]
        playerExplorationCards := [], planetAttachments := [] }
      "p1" "planetA" "f1" 3).1 = Except.error e) := by
  constructor
  · exact (C10_attachment_partition
      { explorationDefinitions := [
          ("f1", { name := "F1", explType := "Cultural", subtype := "relic_fragment"
                   asset := "a" }),
          ("att1", { name := "A", explType := "none", subtype := "attach", asset := "t" })]
        playerExplorationCards := [], planetAttachments := [] }
      "p1" "planetA" "att1" 3
      { name := "A", explType := "none", subtype := "attach", asset := "t" }
      rfl).1.mpr rfl
  · exact (C10_attachment_partition
      { explorationDefinitions := [
          ("f1", { name := "F1", explType := "Cultural", subtype := "relic_fragment"
                   asset := "a" }),
          ("att1", { name := "A", explType := "none", subtype := "attach", asset := "t" })]
        playerExplorationCards := [], planetAttachments := [] }
      "p1" "planetA" "f1" 3
      { name := "F1", explType := "Cultural", subtype := "relic_fragment", asset := "a" }
      rfl).2.mpr (by decide)

/-! ## Relic restoration (C6) -/

theorem restore_relic_tx_rollback (db : CardsDB) (pid : String) (keys : List String)
    (relic_key : String) (now : Nat)
    (h : ¬ (db.playerExplorationCards.filter (fun r =>
      r.playerId == pid && keys.contains r.explorationKey)).length = keys.length) :
    restore_relic_tx db pid keys relic_key now =
      (Except.error "Selected relic fragments not available", db) := by
  unfold restore_relic_tx
  rw [if_pos h]

/-- Rows matched by the `DELETE` of the relic transaction. -/
theorem restore_matched_length (db : CardsDB) (pid : String) (keys : List String)
    (huniq : db.playerExplorationCards.Pairwise (fun a b =>
      ¬ (a.playerId = b.playerId ∧ a.explorationKey = b.explorationKey)))
    (hrows : (fragment_rows db pid keys).length = keys.length) :
    (db.playerExplorationCards.filter (fun r =>
      r.playerId == pid && keys.contains r.explorationKey)).length = keys.length := by
  set matched := db.playerExplorationCards.filter (fun r =>
    r.playerId == pid && keys.contains r.explorationKey) with hmatched
  have hge : keys.length ≤ matched.length := by
    rw [← hrows]
    exact List.length_filterMap_le _ _
  have hpwm : matched.Pairwise (fun a b =>
      ¬ (a.playerId = b.playerId ∧ a.explorationKey = b.explorationKey)) :=
    huniq.sublist (List.filter_sublist _)
  have hpid : ∀ r ∈ matched, r.playerId = pid ∧ r.explorationKey ∈ keys := by
    intro r hr
    have hmem := (List.mem_filter.mp hr).2
    simpa using hmem
  have hpw2 : matched.Pairwise (fun a b => a.explorationKey ≠ b.explorationKey) := by
    refine hpwm.imp_of_mem ?_
    intro a b ha hb hab hk
    exact hab ⟨((hpid a ha).1).trans ((hpid b hb).1).symm, hk⟩
  have hkeysnd : (matched.map (fun r => r.explorationKey)).Nodup :=
    hpw2.map _ (fun a b h => h)
  have hsubset : (matched.map (fun r => r.explorationKey)) ⊆ keys := by
    intro k hk
    rcases List.mem_map.mp hk with ⟨r, hr, rfl⟩
    exact (hpid r hr).2
  have hle : matched.length ≤ keys.length := by
    have := (List.subperm_of_subset hkeysnd hsubset).length_le
    rwa [List.length_map] at this
  exact Nat.le_antisymm hle hge

/-- C6: `restoreRelic` (1) fails with a validation error and leaves the
store unchanged whenever the checks fail — not exactly three keys, keys not
distinct, not all owned with a definition, a non-fragment subtype, or more
than one non-frontier biome; (2) on success (all checks pass, a relic is
available) it deletes the three fragment rows and inserts the drawn relic
row in the same transaction; (3) the delete/insert transaction run against
a store in which fewer rows match (e.g. a fragment was concurrently
removed) rolls back entirely: no fragment row is deleted and no relic is
inserted.  `huniq` is the schema's unique index on
`(playerId, explorationKey)`. -/
theorem C6_restore_relic :
    (∀ (db : CardsDB) (pid : String) (keys : List String) (pick now : Nat),
      ¬ (keys.length = 3 ∧ keys.dedup.length = 3 ∧
          (fragment_rows db pid keys).length = 3 ∧
          (∀ kv ∈ fragment_rows db pid keys, kv.2.subtype = "relic_fragment") ∧
          (((fragment_rows db pid keys).filter (fun kv =>
            ¬ str_lower kv.2.explType = "frontier")).map
              (fun kv => str_lower kv.2.explType)).dedup.length ≤ 1) →
      ∃ e, (restore_relic_from_fragments db pid keys pick now).1 = Except.error e ∧
        (restore_relic_from_fragments db pid keys pick now).2 = db) ∧
    (∀ (db : CardsDB) (pid : String) (keys : List String) (pick now : Nat)
        (relic_choice : String × ExplorationDefinition),
      db.playerExplorationCards.Pairwise (fun a b =>
        ¬ (a.playerId = b.playerId ∧ a.explorationKey = b.explorationKey)) →
      keys.length = 3 → keys.Nodup →
      (fragment_rows db pid keys).length = 3 →
      (∀ kv ∈ fragment_rows db pid keys, kv.2.subtype = "relic_fragment") →
      (((fragment_rows db pid keys).filter (fun kv =>
        ¬ str_lower kv.2.explType = "frontier")).map
          (fun kv => str_lower kv.2.explType)).dedup.length ≤ 1 →
      (list_available_exploration_definitions db pid ["relic"]).get?
        (pick % (list_available_exploration_definitions db pid ["relic"]).length) =
          some relic_choice →
      (restore_relic_from_fragments db pid keys pick now).1 =
        Except.ok (relic_choice.1, str_capitalize
          ((((fragment_rows db pid keys).filter (fun kv =>
            ¬ str_lower kv.2.explType = "frontier")).map
              (fun kv => str_lower kv.2.explType)).dedup.headD "Frontier")) ∧
      (restore_relic_from_fragments db pid keys pick now).2.playerExplorationCards =
        (db.playerExplorationCards.filter (fun r =>
          ¬ (r.playerId == pid && keys.contains r.explorationKey))) ++
        [{ playerId := pid, explorationKey := relic_choice.1
           isExhausted := false, acquiredAt := now }]) ∧
    (∀ (db : CardsDB) (pid : String) (keys : List String) (relic_key : String) (now : Nat),
      ¬ (db.playerExplorationCards.filter (fun r =>
        r.playerId == pid && keys.contains r.explorationKey)).length = keys.length →
      restore_relic_tx db pid keys relic_key now =
        (Except.error "Selected relic fragments not available", db)) := by
  refine ⟨?_, ?_, ?_⟩
  · intro db pid keys pick now hbad
    by_cases h1 : keys.length = 3
    case neg =>
      have heval : restore_relic_from_fragments db pid keys pick now =
          (Except.error "Exactly three relic fragments are required", db) := by
        unfold restore_relic_from_fragments
        rw [if_pos h1]
      exact ⟨_, by rw [heval], by rw [heval]⟩
    case pos =>
    by_cases h2 : keys.dedup.length = 3
    case neg =>
      have heval : restore_relic_from_fragments db pid keys pick now =
          (Except.error "Fragments must be distinct", db) := by
        unfold restore_relic_from_fragments
        rw [if_neg (not_not_intro h1), if_pos h2]
      exact ⟨_, by rw [heval], by rw [heval]⟩
    case pos =>
    by_cases h3 : (fragment_rows db pid keys).length = 3
    case neg =>
      have heval : restore_relic_from_fragments db pid keys pick now =
          (Except.error "Selected relic fragments not found", db) := by
        unfold restore_relic_from_fragments
        rw [if_neg (not_not_intro h1), if_neg (not_not_intro h2), if_pos h3]
      exact ⟨_, by rw [heval], by rw [heval]⟩
    case pos =>
    by_cases h4 : ((fragment_rows db pid keys).any (fun kv =>
        ¬ kv.2.subtype = "relic_fragment")) = true
    case pos =>
      have heval : restore_relic_from_fragments db pid keys pick now =
          (Except.error "Only relic fragments can be restored", db) := by
        unfold restore_relic_from_fragments
        rw [if_neg (not_not_intro h1), if_neg (not_not_intro h2), if_neg (not_not_intro h3),
          if_pos h4]
      exact ⟨_, by rw [heval], by rw [heval]⟩
    case neg =>
    by_cases h5 : (((fragment_rows db pid keys).filter (fun kv =>
        ¬ str_lower kv.2.explType = "frontier")).map
          (fun kv => str_lower kv.2.explType)).dedup.length > 1
    case pos =>
      have heval : restore_relic_from_fragments db pid keys pick now =
          (Except.error "Fragments must share a planet type. Frontier fragments are wild.",
            db) := by
        unfold restore_relic_from_fragments
        rw [if_neg (not_not_intro h1), if_neg (not_not_intro h2), if_neg (not_not_intro h3),
          if_neg h4, if_pos h5]
      exact ⟨_, by rw [heval], by rw [heval]⟩
    case neg =>
      exfalso
      apply hbad
      refine ⟨h1, h2, h3, ?_, ?_⟩
      · intro kv hkv
        have := List.any_eq_false.mp (Bool.not_eq_true _ ▸ h4) kv hkv
        simpa using this
      · exact Nat.not_lt.mp h5
  · intro db pid keys pick now relic_choice huniq h1 hnd h3 h4 h5 hrelic
    have h2 : keys.dedup.length = 3 := by
      rw [List.dedup_eq_self.mpr hnd, h1]
    have h4b : ((fragment_rows db pid keys).any (fun kv =>
        ¬ kv.2.subtype = "relic_fragment")) = false := by
      rw [List.any_eq_false]
      intro kv hkv
      simpa using h4 kv hkv
    have hrowslen : (fragment_rows db pid keys).length = keys.length := by rw [h3, h1]
    have hmatched := restore_matched_length db pid keys huniq hrowslen
    have htx : restore_relic_tx db pid keys relic_choice.1 now =
        (Except.ok (),
          { db with playerExplorationCards :=
              (db.playerExplorationCards.filter (fun r =>
                ¬ (r.playerId == pid && keys.contains r.explorationKey))) ++
              [{ playerId := pid, explorationKey := relic_choice.1
                 isExhausted := false, acquiredAt := now }] }) := by
      unfold restore_relic_tx
      rw [if_neg (not_not_intro hmatched)]
    have heval : restore_relic_from_fragments db pid keys pick now =
        (Except.ok (relic_choice.1, str_capitalize
          ((((fragment_rows db pid keys).filter (fun kv =>
            ¬ str_lower kv.2.explType = "frontier")).map
              (fun kv => str_lower kv.2.explType)).dedup.headD "Frontier")),
          { db with playerExplorationCards :=
              (db.playerExplorationCards.filter (fun r =>
                ¬ (r.playerId == pid && keys.contains r.explorationKey))) ++
              [{ playerId := pid, explorationKey := relic_choice.1
                 isExhausted := false, acquiredAt := now }] }) := by
      unfold restore_relic_from_fragments
      rw [if_neg (not_not_intro h1), if_neg (not_not_intro h2), if_neg (not_not_intro h3),
        if_neg (by rw [h4b]; exact Bool.false_ne_true), if_neg (Nat.not_lt.mpr h5)]
      simp only [hrelic]
      simp only [htx]
    exact ⟨by rw [heval], by rw [heval]⟩
  · intro db pid keys relic_key now h
    exact restore_relic_tx_rollback db pid keys relic_key now h

/-- C6 witness: "p1" owns fragments "f1"/"f2" (Cultural) and "f3"
(Frontier, wild); restoring succeeds with the only remaining relic and
restored type "Cultural"; the same transaction against a store where "f2"
was concurrently removed rolls back with the not-available error. -/
theorem C6_restore_relic_witness :
    ((restore_relic_from_fragments
      { explorationDefinitions := [
          ("f1", { name := "F1", explType := "Cultural", subtype := "relic_fragment"
                   asset := "a" }),
          ("f2", { name := "F2", explType := "cultural", subtype := "relic_fragment"
                   asset := "a" }),
          ("f3", { name := "F3", explType := "Frontier", subtype := "relic_fragment"
                   asset := "a" }),
          ("relic1", { name := "R", explType := "none", subtype := "relic", asset := "r" })]
        playerExplorationCards := [
          { playerId := "p1", explorationKey := "f1", isExhausted := false, acquiredAt := 0 },
          { playerId := "p1", explorationKey := "f2", isExhausted := false, acquiredAt := 0 },
          { playerId := "p1", explorationKey := "f3", isExhausted := false, acquiredAt := 0 }]
        planetAttachments := [] }
      "p1" ["f1", "f2", "f3"] 0 9).1 = Except.ok ("relic1", "Cultural")) ∧
    (restore_relic_tx
      { explorationDefinitions := [
          ("f1", { name := "F1", explType := "Cultural", subtype := "relic_fragment"
                   asset := "a" }),
          ("f2", { name := "F2", explType := "cultural", subtype := "relic_fragment"
                   asset := "a" }),
          ("f3", { name := "F3", explType := "Frontier", subtype := "relic_fragment"
                   asset := "a" }),
          ("relic1", { name := "R", explType := "none", subtype := "relic", asset := "r" })]
        playerExplorationCards := [
          { playerId := "p1", explorationKey := "f1", isExhausted := false, acquiredAt := 0 },
          { playerId := "p1", explorationKey := "f3", isExhausted := false, acquiredAt := 0 }]
        planetAttachments := [] }
      "p1" ["f1", "f2", "f3"] "relic1" 9 =
      (Except.error "Selected relic fragments not available",
        { explorationDefinitions := [
            ("f1", { name := "F1", explType := "Cultural", subtype := "relic_fragment"
                     asset := "a" }),
            ("f2", { name := "F2", explType := "cultural", subtype := "relic_fragment"
                     asset := "a" }),
            ("f3", { name := "F3", explType := "Frontier", subtype := "relic_fragment"
                     asset := "a" }),
            ("relic1", { name := "R", explType := "none", subtype := "relic", asset := "r" })]
          playerExplorationCards := [
            { playerId := "p1", explorationKey := "f1", isExhausted := false, acquiredAt := 0 },
            { playerId := "p1", explorationKey := "f3", isExhausted := false, acquiredAt := 0 }]
          planetAttachments := [] })) := by
  constructor
  · have h := (C6_restore_relic.2.1
      { explorationDefinitions := [
          ("f1", { name := "F1", explType := "Cultural", subtype := "relic_fragment"
                   asset := "a" }),
          ("f2", { name := "F2", explType := "cultural", subtype := "relic_fragment"
                   asset := "a" }),
          ("f3", { name := "F3", explType := "Frontier", subtype := "relic_fragment"
                   asset := "a" }),
          ("relic1", { name := "R", explType := "none", subtype := "relic", asset := "r" })]
        playerExplorationCards := [
          { playerId := "p1", explorationKey := "f1", isExhausted := false, acquiredAt := 0 },
          { playerId := "p1", explorationKey := "f2", isExhausted := false, acquiredAt := 0 },
          { playerId := "p1", explorationKey := "f3", isExhausted := false, acquiredAt := 0 }]
        planetAttachments := [] }
      "p1" ["f1", "f2", "f3"] 0 9
      ("relic1", { name := "R", explType := "none", subtype := "relic", asset := "r" })
      (by decide) rfl (by decide) rfl (by decide) (by decide) rfl)
    exact h.1.trans (congrArg Except.ok (by decide))
  · exact C6_restore_relic.2.2
      { explorationDefinitions := [
          ("f1", { name := "F1", explType := "Cultural", subtype := "relic_fragment"
                   asset := "a" }),
          ("f2", { name := "F2", explType := "cultural", subtype := "relic_fragment"
                   asset := "a" }),
          ("f3", { name := "F3", explType := "Frontier", subtype := "relic_fragment"
                   asset := "a" }),
          ("relic1", { name := "R", explType := "none", subtype := "relic", asset := "r" })]
        playerExplorationCards := [
          { playerId := "p1", explorationKey := "f1", isExhausted := false, acquiredAt := 0 },
          { playerId := "p1", explorationKey := "f3", isExhausted := false, acquiredAt := 0 }]
        planetAttachments := [] }
      "p1" ["f1", "f2", "f3"] "relic1" 9 (by decide)

end Scepter
